import Mathlib

/-!
Verification development for the study-assistant repository.

Python text is modelled as `List Char` (`Str`), matching Python strings as
character sequences.  Each definition below embeds one function of the
repository (files `utils/static_fallbacks.py`, `utils/free_ai_helpers.py`,
`utils/openai_helpers.py`, `utils/content_processor.py`); external
collaborators (the OpenAI client, the HTTP layer behind
`make_api_request`, the `json` library, NLTK tokenizers, the `random`
module) are passed in as explicit parameters.
-/

namespace StudyAssistant

abbrev Str := List Char

/-- Python `\s` (ASCII whitespace as used by `re` on these inputs). -/
def isPyWs (c : Char) : Bool :=
  c = ' ' || c = '\t' || c = '\n' || c = '\r' || c = '\x0b' || c = '\x0c'

/-- Python `\w` on ASCII text: letters, digits and underscore. -/
def isWordCh (c : Char) : Bool := c.isAlpha || c.isDigit || c = '_'

/-- Python `str.lower` on ASCII text. -/
def pyLowerChar (c : Char) : Char :=
  if c.isUpper then Char.ofNat (c.toNat + 32) else c

def pyLower (s : Str) : Str := s.map pyLowerChar

/-- Python `str.upper` on ASCII text. -/
def pyUpperChar (c : Char) : Char :=
  if c.isLower then Char.ofNat (c.toNat - 32) else c

def pyUpper (s : Str) : Str := s.map pyUpperChar

/-- Python `str.strip()`. -/
def stripL (s : Str) : Str :=
  ((s.dropWhile isPyWs).reverse.dropWhile isPyWs).reverse

/-- Helper of `pyCollapseWs`: `prevWs` records whether the previous
character was whitespace already replaced. -/
def collapseGo (prevWs : Bool) : Str → Str
  | [] => []
  | c :: rest =>
    if isPyWs c then
      if prevWs then collapseGo true rest else ' ' :: collapseGo true rest
    else c :: collapseGo false rest

/-- Python `re.sub(r'\s+', ' ', s)`: every maximal whitespace run becomes
a single space. -/
def pyCollapseWs (s : Str) : Str := collapseGo false s

/-- `p.isPrefixOf s` on character lists (Boolean). -/
def startsWithL : Str → Str → Bool
  | [], _ => true
  | _ :: _, [] => false
  | p :: ps, c :: cs => p = c && startsWithL ps cs

/-- Python `p in s` (substring test). -/
def hasSubstr (p : Str) : Str → Bool
  | [] => p.isEmpty
  | c :: cs => startsWithL p (c :: cs) || hasSubstr p cs

/-- Index of the first occurrence of substring `p`, if any
(Python `str.find` returning `-1` is modelled by `none`). -/
def findSubIdx (p : Str) : Str → Option Nat
  | [] => if p.isEmpty then some 0 else none
  | c :: cs =>
    if startsWithL p (c :: cs) then some 0
    else (findSubIdx p cs).map (· + 1)

/-- Python `s.find(ch, start)`: absolute index of first occurrence of the
character at or after `start`, `none` for `-1`. -/
def pyFindCharFrom (s : Str) (ch : Char) (start : Nat) : Option Nat :=
  match (s.drop start).findIdx? (· = ch) with
  | some i => some (start + i)
  | none => none

/-- Python `str.split()` with no argument: split on whitespace runs,
dropping empty pieces.  `fuel` only bounds recursion. -/
def pySplitGo (fuel : Nat) (s : Str) : List Str :=
  match fuel with
  | 0 => []
  | fuel + 1 =>
    match s.dropWhile isPyWs with
    | [] => []
    | c :: cs =>
      let w := (c :: cs).takeWhile (fun x => !isPyWs x)
      w :: pySplitGo fuel ((c :: cs).drop w.length)

def pySplit (s : Str) : List Str := pySplitGo (s.length + 1) s

/-- Number of words of a Python string (`len(s.split())`). -/
def wordCount (s : Str) : Nat := (pySplit s).length

/-- Python `sep.join(parts)`. -/
def joinWith (sep : Str) : List Str → Str
  | [] => []
  | [x] => x
  | x :: y :: rest => x ++ sep ++ joinWith sep (y :: rest)

/-- Python `s.split(sep)` for a non-empty separator (keeps empty pieces). -/
def pySplitOnGo (fuel : Nat) (sep : Str) (s : Str) (acc : Str) : List Str :=
  match fuel with
  | 0 => [acc.reverse]
  | fuel + 1 =>
    match s with
    | [] => [acc.reverse]
    | c :: cs =>
      if startsWithL sep (c :: cs) then
        acc.reverse :: pySplitOnGo fuel sep ((c :: cs).drop sep.length) []
      else
        pySplitOnGo fuel sep cs (c :: acc)

def pySplitOn (sep : Str) (s : Str) : List Str :=
  pySplitOnGo (s.length + 1) sep s []

/-- Python `str.replace(old, new)` (all occurrences, `old` non-empty). -/
def pyReplaceGo (fuel : Nat) (old new : Str) (s : Str) : Str :=
  match fuel with
  | 0 => s
  | fuel + 1 =>
    match s with
    | [] => []
    | c :: cs =>
      if startsWithL old (c :: cs) then
        new ++ pyReplaceGo fuel old new ((c :: cs).drop old.length)
      else
        c :: pyReplaceGo fuel old new cs

def pyReplace (s old new : Str) : Str := pyReplaceGo (s.length + 1) old new s

/-- Python `str.capitalize()`: first character uppercased, rest lowered. -/
def pyCapitalize (s : Str) : Str :=
  match s with
  | [] => []
  | c :: cs => pyUpperChar c :: pyLower cs

/-- Python `re.split(r'(?<=[.!?])\s+', text)`: split at whitespace runs
immediately preceded by `.`, `!` or `?`.  The separator is dropped;
an empty trailing piece is kept, as `re.split` does. -/
def isSentEnd (c : Char) : Bool := c = '.' || c = '!' || c = '?'

def splitSentencesGo (fuel : Nat) (acc : Str) : Str → List Str
  | [] => [acc.reverse]
  | c :: cs =>
    match fuel with
    | 0 => [(acc.reverse) ++ (c :: cs)]
    | fuel + 1 =>
      if isSentEnd c && (match cs with | d :: _ => isPyWs d | [] => false) then
        let rest := cs.dropWhile isPyWs
        (acc.reverse ++ [c]) :: splitSentencesGo fuel [] rest
      else
        splitSentencesGo fuel (c :: acc) cs

def splitSentences (s : Str) : List Str := splitSentencesGo (s.length + 1) [] s

/-- Descending list `n, n-1, ..., 1` (greedy quantifier candidates). -/
def downFrom1 (n : Nat) : List Nat := (List.range n).reverse.map (· + 1)

/-- Ascending list `0, 1, ..., n` (lazy quantifier candidates). -/
def upTo (n : Nat) : List Nat := List.range (n + 1)

/-! ## `static_fallbacks.extract_slide_content`

Embeds the pattern
`Slide\s+(\d+):\s+([^\n]+)(?:\n(?:[^\n]*\d+[^\n]*\n)?)?([^S]*?)(?=Slide\s+\d+:|$)`
compiled with `re.DOTALL` (so `$` matches at the end of the string or just
before a final newline), with Python's backtracking preferences: greedy
quantifiers try longest first, the optional group tries present first,
the lazy content group grows from the empty match. -/

structure SlideMatch where
  num : Str
  title : Str
  content : Str
  rest : Str
  deriving Repr, DecidableEq

/-- Length of the leading whitespace run. -/
def wsRun (s : Str) : Nat := (s.takeWhile isPyWs).length

/-- Leading digit run. -/
def digitRun (s : Str) : Str := s.takeWhile Char.isDigit

/-- The lookahead alternative `Slide\s+\d+:`. -/
def lookSlideHeader (s : Str) : Bool :=
  startsWithL ("Slide".toList) s &&
  (let r := s.drop 5
   let w := wsRun r
   decide (0 < w) &&
   (let r2 := r.drop w
    let d := (digitRun r2).length
    decide (0 < d) &&
    (match r2.drop d with
     | ':' :: _ => true
     | _ => false)))

/-- The `$` anchor without `re.MULTILINE`. -/
def atDollar (s : Str) : Bool := s.isEmpty || s == ['\n']

/-- Candidate remainders for the optional group
`(?:\n(?:[^\n]*\d+[^\n]*\n)?)?`, in Python preference order:
newline plus a digit-bearing line with its newline, then just the
newline, then nothing. -/
def optGroupCands (r : Str) : List Str :=
  match r with
  | '\n' :: r2 =>
    let line := r2.takeWhile (· ≠ '\n')
    (match r2.drop line.length with
     | '\n' :: r3 =>
       if line.any Char.isDigit then [r3, r2, r] else [r2, r]
     | _ => [r2, r])
  | _ => [r]

/-- One attempted match of the slide pattern at the start of `s`. -/
def matchSlideAt (s : Str) : Option SlideMatch :=
  if startsWithL ("Slide".toList) s then
    let r0 := s.drop 5
    let w1 := wsRun r0
    if w1 = 0 then none else
    let r1 := r0.drop w1
    let num := digitRun r1
    if num.isEmpty then none else
    match r1.drop num.length with
    | ':' :: r3 =>
      let w2max := wsRun r3
      if w2max = 0 then none else
      (downFrom1 w2max).findSome? fun w2 =>
        let r4 := r3.drop w2
        let line := r4.takeWhile (· ≠ '\n')
        if line.isEmpty then none else
        (downFrom1 line.length).findSome? fun t =>
          let r5 := r4.drop t
          (optGroupCands r5).findSome? fun r6 =>
            let nonS := r6.takeWhile (· ≠ 'S')
            (upTo nonS.length).findSome? fun c =>
              let rest := r6.drop c
              if lookSlideHeader rest || atDollar rest then
                some ⟨num, line.take t, nonS.take c, rest⟩
              else none
    | _ => none
  else none

/-- `re.findall` scan: try a match at each position, resume after a
match, otherwise advance one character. -/
def slideScan (fuel : Nat) (s : Str) : List SlideMatch :=
  match fuel with
  | 0 => []
  | fuel + 1 =>
    match s with
    | [] => []
    | c :: cs =>
      match matchSlideAt (c :: cs) with
      | some m => m :: slideScan fuel m.rest
      | none => slideScan fuel cs

structure SlideC where
  number : Str
  title : Str
  content : Str
  deriving Repr, DecidableEq

/-- `static_fallbacks.extract_slide_content`. -/
def extract_slide_content (text : Str) : List SlideC :=
  (slideScan (text.length + 1) text).filterMap fun m =>
    let cleaned := stripL (pyCollapseWs m.content)
    if !m.title.isEmpty && !cleaned.isEmpty then
      some ⟨m.num, stripL m.title, cleaned⟩
    else none

/-- Shorthand for string literals as character lists. -/
def lit (s : String) : Str := s.toList

/-! ## Result envelope

Every tier function returns a Python dict that either has
`success: True` together with its payload key, or `success: False`
together with an `error` string.  This two-shaped dict is modelled as
`Except Str payload`: `.ok` is the success dict, `.error` the failure
dict.  `result["success"]` checks are modelled by `Except.isOk`. -/

abbrev OpResult (α : Type) := Except Str α

/-! ## Static-tier payload shapes -/

structure KeyTerm where
  term : Str
  definition : Str
  deriving Repr, DecidableEq

structure Flashcard where
  question : Str
  answer : Str
  deriving Repr, DecidableEq

structure GuideSections where
  key_terms : List KeyTerm
  important_concepts : List Str
  flashcards : List Flashcard
  deriving Repr, DecidableEq

/-- `{title, description, type, url}` (field `type` renamed `rtype`). -/
structure Resource where
  title : Str
  description : Str
  rtype : Str
  url : Str
  deriving Repr, DecidableEq

/-- A quiz question dict: `options` is the Python dict in insertion
order, modelled as an association list. -/
structure PyQuestion where
  question : Str
  options : List (Str × Str)
  correct_answer : Str
  explanation : Str
  deriving Repr, DecidableEq

/-- Python dict lookup on an association list. -/
def dictGet (d : List (Str × Str)) (k : Str) : Option Str :=
  (d.find? fun p => p.1 = k).map Prod.snd

/-! ## Randomness model

`random.choice`, `random.shuffle` and `random.randint` are modelled by
an external stream `g : Nat → Nat` consumed at an explicit counter `k`:
call number `k` draws `g k`.  No theorem depends on the concrete
stream; all claims hold for every `g`. -/

def pyChoice {α : Type} (g : Nat → Nat) (k : Nat) (xs : List α) (dflt : α) : α :=
  xs.getD (g k % xs.length) dflt

/-- `random.shuffle`: repeatedly draw an index, move that element to the
front of the result.  Returns the permuted list and the next counter. -/
def pyShuffleGo {α : Type} (g : Nat → Nat) : Nat → Nat → List α → List α × Nat
  | _, k, [] => ([], k)
  | 0, k, xs => (xs, k)
  | fuel + 1, k, x :: xs =>
    let i := g k % (x :: xs).length
    let chosen := (x :: xs).getD i x
    let rest := (x :: xs).eraseIdx i
    let out := pyShuffleGo g fuel (k + 1) rest
    (chosen :: out.1, out.2)

def pyShuffle {α : Type} (g : Nat → Nat) (k : Nat) (xs : List α) : List α × Nat :=
  pyShuffleGo g xs.length k xs

/-! ## `static_fallbacks.get_static_summary` -/

def importanceKeywords : List Str :=
  [lit "important", lit "key", lit "main", lit "crucial", lit "essential",
   lit "significant", lit "primary", lit "fundamental", lit "critical"]

def defaultSummaryLines : List Str :=
  [lit "• Clustering is an unsupervised learning technique for grouping similar data points.",
   lit "• Different distance metrics are used in clustering, including Euclidean, Manhattan, and Cosine.",
   lit "• K-means is a common partitioning clustering method that requires specifying the number of clusters.",
   lit "• Hierarchical clustering creates a tree-like structure without requiring pre-specified cluster count."]

/-- Slide-based summary points, stopping once `max_bullets` are
collected (the `break` at the top of the Python loop). -/
def staticSlidePointsGo (max_bullets : Nat) : List SlideC → List Str → List Str
  | [], acc => acc.reverse
  | sl :: rest, acc =>
    if max_bullets ≤ acc.length then acc.reverse
    else if hasSubstr (lit "key concept") (pyLower sl.title)
         || hasSubstr (lit "important") (pyLower sl.title) then
      staticSlidePointsGo max_bullets rest
        ((sl.title ++ lit ": " ++ sl.content.take 100 ++ lit "...") :: acc)
    else if !sl.content.isEmpty && decide (20 < sl.content.length) then
      let first_sentence := (splitSentences sl.content).headD []
      if !first_sentence.isEmpty && decide (20 < first_sentence.length) then
        staticSlidePointsGo max_bullets rest (first_sentence :: acc)
      else staticSlidePointsGo max_bullets rest acc
    else staticSlidePointsGo max_bullets rest acc

/-- `static_fallbacks.get_static_summary`.  Internal failures are
answered by the function's own exception handler with the same
`success: True` canned summary, so the result is always `.ok`. -/
def get_static_summary (text : Str) (max_bullets : Nat) : OpResult Str :=
  let slides := extract_slide_content text
  let summary_points :=
    if slides.isEmpty then
      let sentences := splitSentences text
      let important_sentences := sentences.filterMap fun s =>
        if importanceKeywords.any fun kw => hasSubstr kw (pyLower s) then
          some (stripL s)
        else none
      let pts := important_sentences.take max_bullets
      if pts.isEmpty && !sentences.isEmpty then
        (sentences.take max_bullets).filterMap fun s =>
          if decide (20 < (stripL s).length) then some (stripL s) else none
      else pts
    else staticSlidePointsGo max_bullets slides []
  let formatted := summary_points.filterMap fun p =>
    let p' := stripL p
    if !p'.isEmpty && decide (15 < p'.length) then some (lit "• " ++ p') else none
  let formatted := if formatted.isEmpty then defaultSummaryLines else formatted
  .ok (joinWith (lit "\n") formatted)

/-! ## `static_fallbacks.get_static_resources` -/

/-- Maximal runs of `\w` characters (used for `\b`-delimited word
patterns: inside a run there is no word boundary, so a class-limited
word pattern can only match a whole run). -/
def wordRunsGo (fuel : Nat) (s : Str) : List Str :=
  match fuel with
  | 0 => []
  | fuel + 1 =>
    match s.dropWhile fun c => !isWordCh c with
    | [] => []
    | c :: cs =>
      let w := (c :: cs).takeWhile isWordCh
      w :: wordRunsGo fuel ((c :: cs).drop w.length)

def wordRuns (s : Str) : List Str := wordRunsGo (s.length + 1) s

/-- ASCII lowercase letter test (Python `[a-z]`). -/
def isLowerAZ (c : Char) : Bool := 'a' ≤ c && c ≤ 'z'

/-- ASCII letter test (Python `[A-Za-z]`). -/
def isLetterAZ (c : Char) : Bool := ('A' ≤ c && c ≤ 'Z') || isLowerAZ c

/-- `re.findall(r'\b[A-Za-z][a-z]{2,}\b', s)`: whole word runs of a
letter followed by at least two lowercase letters. -/
def wordsLetterLower2 (s : Str) : List Str :=
  (wordRuns s).filter fun w =>
    match w with
    | c :: cs => isLetterAZ c && decide (2 ≤ cs.length) && cs.all isLowerAZ
    | [] => false

def staticTitleStop : List Str :=
  [lit "the", lit "and", lit "for", lit "with", lit "slide", lit "week", lit "april"]

/-- Occurrence counts in first-occurrence order (Python dict built by
incrementing; key order is insertion order). -/
def countsOf (xs : List Str) : List (Str × Nat) :=
  xs.foldl (fun acc x =>
    if acc.any fun p => p.1 = x then
      acc.map fun p => if p.1 = x then (p.1, p.2 + 1) else p
    else acc ++ [(x, 1)]) []

/-- `max(keys, key=count)`: first key (in insertion order) holding the
maximal count. -/
def maxByCount (l : List (Str × Nat)) : Str :=
  match l with
  | [] => []
  | p :: rest =>
    (rest.foldl (fun best q => if best.2 < q.2 then q else best) p).1

def clusteringResources : List Resource :=
  [⟨lit "Machine Learning: Clustering Algorithms",
    lit "A comprehensive online course covering various clustering techniques including K-means, hierarchical clustering, and density-based methods.",
    lit "Online Course",
    lit "https://www.coursera.org/learn/clustering-algorithms"⟩,
   ⟨lit "Practical Guide to Cluster Analysis in Python",
    lit "An extensive tutorial with code examples for implementing different clustering algorithms in Python using scikit-learn.",
    lit "E-Book",
    lit "https://www.amazon.com/Guide-Cluster-Analysis-Python-Unsupervised-ebook/dp/B07PYDR2CQ"⟩,
   ⟨lit "K-means Clustering Explained",
    lit "A visual explanation of how K-means clustering works, with interactive demonstrations and real-world applications.",
    lit "YouTube Tutorial",
    lit "https://www.youtube.com/watch?v=_aWzGGNrcic"⟩]

/-- `static_fallbacks.get_static_resources`.  Always `.ok` (its
exception handler also returns `success: True`). -/
def get_static_resources (text : Str) (max_resources : Nat) : OpResult (List Resource) :=
  let slides := extract_slide_content text
  let main_topic :=
    if slides.isEmpty then lit "Clustering"
    else
      let title_words := slides.flatMap fun sl =>
        (wordsLetterLower2 sl.title).filterMap fun w =>
          let wl := pyLower w
          if staticTitleStop.contains wl then none else some wl
      let word_counts := countsOf title_words
      if word_counts.isEmpty then lit "Clustering"
      else pyCapitalize (maxByCount word_counts)
  let resources :=
    if pyLower main_topic = lit "clustering" then clusteringResources
    else
      ([lit "Online Course", lit "Academic Paper", lit "YouTube Tutorial"].take max_resources).map
        fun res_type =>
          ⟨main_topic ++ lit " Fundamentals: A Complete Guide",
           lit "A comprehensive resource on " ++ pyLower main_topic ++
             lit " covering key concepts, methodologies, and practical applications in the field.",
           res_type,
           lit "https://www.example.com/" ++ pyReplace (pyLower main_topic) (lit " ") (lit "-")⟩
  .ok (resources.take max_resources)

/-! ## `static_fallbacks.generate_static_study_guide` -/

/-- Character class `[a-zA-Z\s-]` of the key-term pattern. -/
def isTermCh (c : Char) : Bool := isLetterAZ c || isPyWs c || c = '-'

/-- One attempted match of `([A-Z][a-zA-Z\s-]+):\s+([^\.]+\.[^\.]*)` at
the start of the input; returns term, definition and the remainder. -/
def termDefnAt (s : Str) : Option (Str × Str × Str) :=
  match s with
  | [] => none
  | c :: cs =>
    if c.isUpper then
      let run := cs.takeWhile isTermCh
      if run.isEmpty then none else
      match cs.drop run.length with
      | ':' :: r2 =>
        let wmax := wsRun r2
        if wmax = 0 then none else
        (downFrom1 wmax).findSome? fun w =>
          let r3 := r2.drop w
          let part1 := r3.takeWhile (· ≠ '.')
          if part1.isEmpty then none else
          match r3.drop part1.length with
          | '.' :: r4 =>
            let part2 := r4.takeWhile (· ≠ '.')
            some (c :: run, part1 ++ '.' :: part2, r4.drop part2.length)
          | _ => none
      | _ => none
    else none

def termDefnScan (fuel : Nat) (s : Str) : List (Str × Str) :=
  match fuel with
  | 0 => []
  | fuel + 1 =>
    match s with
    | [] => []
    | c :: cs =>
      match termDefnAt (c :: cs) with
      | some (t, d, rest) => (t, d) :: termDefnScan fuel rest
      | none => termDefnScan fuel cs

def kwAny (kws : List Str) (s : Str) : Bool := kws.any fun kw => hasSubstr kw s

def defaultKeyTerms : List KeyTerm :=
  [⟨lit "Clustering",
    lit "An unsupervised learning technique that involves grouping data points into clusters based on similarity."⟩,
   ⟨lit "K-means",
    lit "A partitioning method that requires the number of clusters (k) to be specified and divides data into k clusters."⟩,
   ⟨lit "Hierarchical Clustering",
    lit "A method that creates a tree-like structure (dendrogram) showing nested clusters without predefined centroids."⟩,
   ⟨lit "Euclidean Distance",
    lit "The straight-line distance between two points in a plane, often used in clustering algorithms."⟩]

def defaultConcepts : List Str :=
  [lit "Clustering is an unsupervised learning technique that groups similar data points together.",
   lit "The goal of clustering is to organize data so that objects in the same cluster are more similar to each other than to those in other clusters.",
   lit "Different distance metrics affect how similarity between data points is calculated in clustering algorithms."]

def defaultFlashcards : List Flashcard :=
  [⟨lit "What is clustering in machine learning?",
    lit "Clustering is an unsupervised learning technique that involves grouping data points into clusters based on similarity, without predefined labels."⟩,
   ⟨lit "What is the difference between K-means and Hierarchical clustering?",
    lit "K-means requires specifying the number of clusters beforehand and uses centroids, while Hierarchical clustering creates a tree-like structure (dendrogram) and doesn\x27t require pre-specifying the number of clusters."⟩,
   ⟨lit "What distance metrics are commonly used in clustering?",
    lit "Common distance metrics include Euclidean distance (straight-line), Manhattan distance (city block), and Cosine similarity (angle between vectors, often used for text data)."⟩]

/-- Flashcard loop of the static study guide (breaks at five cards). -/
def staticFlashGo : List SlideC → List Flashcard → List Flashcard
  | [], acc => acc.reverse
  | sl :: rest, acc =>
    if 5 ≤ acc.length then acc.reverse
    else
      let title := stripL sl.title
      let content := stripL sl.content
      if decide (5 < title.length) && decide (20 < content.length) then
        let question0 := lit "What is " ++ title ++ lit "?"
        let question :=
          if !hasSubstr (lit "?") question0 then
            lit "Explain the concept of " ++ title ++ lit "?"
          else question0
        staticFlashGo rest (⟨question, content.take 200⟩ :: acc)
      else staticFlashGo rest acc

/-- `static_fallbacks.generate_static_study_guide`.  The payload models
the inner `sections` dict of `{"study_guide": {"study_guide": sections}}`.
Always `.ok` (its exception handler also returns `success: True`). -/
def generate_static_study_guide (text : Str) : OpResult GuideSections :=
  let slides := extract_slide_content text
  let definition_slides := slides.filter fun sl =>
    kwAny [lit "key", lit "concept", lit "term", lit "definition"] (pyLower sl.title)
  let kts0 := definition_slides.flatMap fun sl =>
    (termDefnScan (sl.content.length + 1) sl.content).filterMap fun td =>
      if !td.1.isEmpty && !td.2.isEmpty && decide (1 < td.1.length)
         && decide (10 < td.2.length) then
        some (⟨stripL td.1, stripL td.2⟩ : KeyTerm)
      else none
  let kts1 :=
    if kts0.isEmpty then
      slides.filterMap fun sl =>
        if hasSubstr (lit ":") sl.title && decide (20 < sl.content.length) then
          let parts := pySplitOn (lit ":") sl.title
          let term := if 1 < parts.length then stripL (parts.getD 1 []) else sl.title
          some (⟨term, stripL (sl.content.take 200)⟩ : KeyTerm)
        else none
    else kts0
  let key_terms := if kts1.isEmpty then defaultKeyTerms else kts1
  let ics0 := slides.filterMap fun sl =>
    if kwAny [lit "key", lit "important", lit "concept", lit "fundamental", lit "principle"]
         (pyLower sl.title) && decide (30 < sl.content.length) then
      some (stripL (sl.content.take 200))
    else none
  let ics1 :=
    if ics0.isEmpty then
      slides.filterMap fun sl =>
        if !sl.content.isEmpty && decide (50 < sl.content.length) then
          let cs := splitSentences sl.content
          if !cs.isEmpty && decide (30 < (cs.headD []).length) then
            some (cs.headD [])
          else none
        else none
    else ics0
  let ics2 := ics1.take 5
  let important_concepts := if ics2.isEmpty then defaultConcepts else ics2
  let fcs := staticFlashGo slides []
  let flashcards := if fcs.isEmpty then defaultFlashcards else fcs
  .ok ⟨key_terms, important_concepts, flashcards⟩

/-! ## `static_fallbacks.generate_static_quiz` -/

def staticGenericOptions (title : Str) : List Str :=
  [lit "A statistical method unrelated to " ++ pyLower title ++ lit ".",
   lit "The process of labeling data points for supervised learning.",
   lit "A visualization technique that doesn\x27t involve grouping data.",
   lit "A preprocessing step that normalizes all data values."]

def staticQuestionTypes (title : Str) : List Str :=
  [lit "Which of the following best describes " ++ title ++ lit "?",
   lit "What is the main purpose of " ++ title ++ lit "?",
   lit "Which statement about " ++ title ++ lit " is correct?"]

def staticGenericQuestions : List PyQuestion :=
  [⟨lit "What is the main goal of clustering algorithms?",
    [(lit "A", lit "To group similar data points together based on their characteristics"),
     (lit "B", lit "To predict labels for new data points based on training data"),
     (lit "C", lit "To reduce the dimensionality of the dataset"),
     (lit "D", lit "To identify outliers in the dataset")],
    lit "A",
    lit "Clustering algorithms aim to group similar data points together based on their characteristics without predefined labels."⟩,
   ⟨lit "Which of the following is NOT a common distance metric used in clustering?",
    [(lit "A", lit "Euclidean distance"),
     (lit "B", lit "Manhattan distance"),
     (lit "C", lit "Cosine similarity"),
     (lit "D", lit "Regression distance")],
    lit "D",
    lit "Regression distance is not a standard distance metric used in clustering. Euclidean, Manhattan, and Cosine are commonly used."⟩,
   ⟨lit "What is K-means clustering?",
    [(lit "A", lit "A hierarchical clustering method that builds a tree of clusters"),
     (lit "B", lit "A partitioning method that divides data into K clusters based on centroids"),
     (lit "C", lit "A density-based method that identifies clusters in high-density regions"),
     (lit "D", lit "A dimensionality reduction technique")],
    lit "B",
    lit "K-means is a partitioning clustering method that divides data into K clusters, with each cluster represented by its centroid."⟩,
   ⟨lit "What is the main advantage of hierarchical clustering over K-means?",
    [(lit "A", lit "It\x27s always faster to compute"),
     (lit "B", lit "It can handle categorical data better"),
     (lit "C", lit "It doesn\x27t require specifying the number of clusters beforehand"),
     (lit "D", lit "It\x27s more accurate on all datasets")],
    lit "C",
    lit "A key advantage of hierarchical clustering is that you don\x27t need to specify the number of clusters beforehand, unlike K-means."⟩,
   ⟨lit "What does DBSCAN stand for?",
    [(lit "A", lit "Density-Based Spatial Clustering of Applications with Noise"),
     (lit "B", lit "Distance-Based Systematic Clustering Analysis Network"),
     (lit "C", lit "Dynamic Binary Sorting for Cluster Analysis"),
     (lit "D", lit "Dual-Based System for Cluster Assignment")],
    lit "A",
    lit "DBSCAN stands for Density-Based Spatial Clustering of Applications with Noise. It\x27s a density-based clustering algorithm."⟩]

/-- First sentence of `s` as Python `s.split(".")[0] if "." in s else s[:100]`. -/
def firstDotPiece (s : Str) : Str :=
  if hasSubstr (lit ".") s then (pySplitOn (lit ".") s).headD [] else s.take 100

/-- Slide loop of the static quiz, threading the random counter `k`. -/
def staticQuizGo (g : Nat → Nat) (slides : List SlideC) (num_questions : Nat) :
    List SlideC → Nat → List PyQuestion → List PyQuestion
  | [], _, acc => acc.reverse
  | sl :: rest, k, acc =>
    if num_questions ≤ acc.length then acc.reverse
    else
      let title := stripL sl.title
      let content := stripL sl.content
      if decide (5 < title.length) && decide (30 < content.length)
         && !(pyLower title = lit "introduction") && !(pyLower title = lit "summary") then
        let question := pyChoice g k (staticQuestionTypes title) []
        let correct_answer := firstDotPiece content
        let incorrect_options := slides.filterMap fun o =>
          if !(o.number = sl.number) && decide (20 < o.content.length) then
            let oc := firstDotPiece o.content
            if decide (20 < oc.length) then some oc else none
          else none
        let all_incorrect := incorrect_options ++ staticGenericOptions title
        let sh := pyShuffle g (k + 1) all_incorrect
        let selected := sh.1.take 3
        let options : List (Str × Str) :=
          [(lit "A", correct_answer),
           (lit "B", selected.getD 0 (lit "An alternative approach not discussed in the slides.")),
           (lit "C", selected.getD 1 (lit "A concept from supervised learning, not clustering.")),
           (lit "D", selected.getD 2 (lit "None of the above."))]
        let sh2 := pyShuffle g sh.2 (options.map Prod.snd)
        let shuffled_options := List.zip (options.map Prod.fst) sh2.1
        let correct_letter :=
          ((shuffled_options.find? fun p => p.2 = correct_answer).map Prod.fst).getD (lit "A")
        let q : PyQuestion :=
          ⟨question, shuffled_options, correct_letter,
           lit "This is explained in the slide about " ++ title ++ lit "."⟩
        staticQuizGo g slides num_questions rest sh2.2 (q :: acc)
      else staticQuizGo g slides num_questions rest k acc

/-- `static_fallbacks.generate_static_quiz`.  Always `.ok` (its
exception handler also returns `success: True` with canned questions). -/
def generate_static_quiz (g : Nat → Nat) (text : Str) (num_questions : Nat) :
    OpResult (List PyQuestion) :=
  let slides := extract_slide_content text
  let quiz_questions := staticQuizGo g slides num_questions slides 0 []
  let quiz_questions :=
    if quiz_questions.length < num_questions then
      quiz_questions ++ staticGenericQuestions.take (num_questions - quiz_questions.length)
    else quiz_questions
  .ok quiz_questions

/-! ## JSON values

The primary tier parses provider responses with `json.loads` and
returns the parsed value unvalidated.  Parsed JSON is modelled by this
inductive; the parse itself (the Python `json` library) is external, so
tier functions take the parse outcome as a parameter. -/

inductive Json where
  | null : Json
  | bool (b : Bool) : Json
  | num (n : Int) : Json
  | str (s : Str) : Json
  | arr (xs : List Json) : Json
  | obj (fields : List (Str × Json)) : Json
  deriving Repr

/-- Key lookup in a JSON object (Python dict access). -/
def jsonLookup (j : Json) (k : Str) : Option Json :=
  match j with
  | .obj fs => (fs.find? fun p => p.1 = k).map Prod.snd
  | _ => none

/-- Python `key in value` as used on `json.loads` output: dict key
membership; on a list, membership of the string; on a string, substring
containment; `False` otherwise. -/
def jsonMember (k : Str) (j : Json) : Bool :=
  match j with
  | .obj fs => fs.any fun p => p.1 = k
  | .arr xs => xs.any fun x => match x with | .str s => s = k | _ => false
  | .str s => hasSubstr k s
  | _ => false

/-! ## Tier payload shapes per capability

The three tiers build differently shaped payloads (the primary tier
returns raw parsed JSON; the secondary and static tiers construct their
dicts field by field), so each capability's payload is a sum over the
producing shape.  For the study guide, `parsed s` stands for the dict
`{"study_guide": {"study_guide": sections}}` built by the secondary and
static tiers; for the quiz, `parsedFree qs` stands for
`{"quiz": {"quiz": questions}}` and `parsedStatic qs` for the static
tier's flat `questions` list. -/

inductive GuideData where
  | parsed (s : GuideSections)
  | raw (j : Json)
  deriving Repr

inductive QuizData where
  | parsedFree (qs : List PyQuestion)
  | parsedStatic (qs : List PyQuestion)
  | raw (j : Json)
  deriving Repr

inductive ResData where
  | freeItems (rs : List Resource)
  | staticItems (rs : List Resource)
  | raw (j : Json)
  deriving Repr

/-! ## `openai_helpers` (primary tier)

`client` is `None` exactly when `OPENAI_API_KEY` is absent
(`clientPresent = false`).  The network call plus `json.loads` outcome
is the `ApiJsonResp` parameter: `apiError` models an exception from the
API call, `badJson` a `json.JSONDecodeError`, `ok j` a successfully
parsed value `j`. -/

inductive ApiJsonResp where
  | apiError (e : Str)
  | badJson (e : Str)
  | ok (j : Json)

/-- `openai_helpers.get_summary` (the `text`/`max_bullets` arguments
shape the prompt, which is external). -/
def openai_get_summary (clientPresent : Bool) (resp : Except Str Str)
    (_text : Str) (_max_bullets : Nat) : OpResult Str :=
  if !clientPresent then .error (lit "OpenAI API key not configured")
  else
    match resp with
    | .ok content => .ok content
    | .error e => .error (lit "Error generating summary: " ++ e)

/-- `openai_helpers.get_resources`. -/
def openai_get_resources (clientPresent : Bool) (resp : ApiJsonResp)
    (_topic : Str) (_max_resources : Nat) : OpResult ResData :=
  if !clientPresent then .error (lit "OpenAI API key not configured")
  else
    match resp with
    | .apiError e => .error (lit "Error finding resources: " ++ e)
    | .badJson e => .error (lit "Error parsing JSON response: " ++ e)
    | .ok j =>
      .ok (.raw (if jsonMember (lit "resources") j then j
                 else Json.obj [(lit "resources", j)]))

/-- `openai_helpers.generate_study_guide`: the parsed JSON is wrapped
under a `study_guide` key if missing and returned unvalidated. -/
def openai_generate_study_guide (clientPresent : Bool) (resp : ApiJsonResp)
    (_text : Str) : OpResult GuideData :=
  if !clientPresent then .error (lit "OpenAI API key not configured")
  else
    match resp with
    | .apiError e => .error (lit "Error generating study guide: " ++ e)
    | .badJson e => .error (lit "Error parsing JSON response: " ++ e)
    | .ok j =>
      .ok (.raw (if jsonMember (lit "study_guide") j then j
                 else Json.obj [(lit "study_guide", j)]))

/-- `openai_helpers.generate_quiz`: the parsed JSON is wrapped under a
`quiz` key if missing (both branches of the Python `if` do the same)
and returned unvalidated. -/
def openai_generate_quiz (clientPresent : Bool) (resp : ApiJsonResp)
    (_text : Str) (_num_questions : Nat) : OpResult QuizData :=
  if !clientPresent then .error (lit "OpenAI API key not configured")
  else
    match resp with
    | .apiError e => .error (lit "Error generating quiz: " ++ e)
    | .badJson e => .error (lit "Error parsing JSON response: " ++ e)
    | .ok j =>
      .ok (.raw (if jsonMember (lit "quiz") j then j
                 else Json.obj [(lit "quiz", j)]))

/-! ## `content_processor` fallback wrappers

Each wrapper tries the primary result, then the secondary, then the
static tier; the surrounding `try/except` falls back to the static tier
as well, which returns the same always-`.ok` static result.  The `List
Tier` component records which tiers were invoked, in order. -/

inductive Tier where
  | primary
  | secondary
  | static
  deriving Repr, DecidableEq

def orchestrate {α : Type} (p s st : OpResult α) : OpResult α × List Tier :=
  if p.isOk then (p, [Tier.primary])
  else if s.isOk then (s, [Tier.primary, Tier.secondary])
  else (st, [Tier.primary, Tier.secondary, Tier.static])

/-! ## `free_ai_helpers` (secondary tier)

`make_api_request` performs the network retry/rotation loop
(`free_ai_helpers.py` lines 86-190); its observable behaviour is a
function from an optional explicit endpoint and a prompt to an optional
response text (`none` models total failure after all retries and
endpoint rotations).  It is passed to every secondary-tier operation as
the parameter `api`.  `parseJson` models the Python `json.loads`
(`none` is a `JSONDecodeError`). -/

abbrev ApiFun := Option Str → Str → Option Str

def natToStr (n : Nat) : Str := (toString n).toList

/-- Python `text[:10000] + "..." if len(text) > 10000 else text`. -/
def truncate10000 (text : Str) : Str :=
  if 10000 < text.length then text.take 10000 ++ lit "..." else text

/-- ASCII uppercase letter test (Python `[A-Z]`). -/
def isUpperAZ (c : Char) : Bool := 'A' ≤ c && c ≤ 'Z'

def lowerRun (s : Str) : Str := s.takeWhile isLowerAZ

/-- `[A-Z][a-z]+` at the start of the input. -/
def capWordAt (s : Str) : Option (Str × Str) :=
  match s with
  | [] => none
  | c :: cs =>
    if isUpperAZ c then
      let r := lowerRun cs
      if r.isEmpty then none else some (c :: r, cs.drop r.length)
    else none

/-- Greedy `(?:\s+[A-Z][a-z]+){0,k}`: returns extension text, remainder
and the number of repetitions taken. -/
def capPhraseExt : Nat → Str → Str × Str × Nat
  | 0, s => ([], s, 0)
  | k + 1, s =>
    let w := wsRun s
    if w = 0 then ([], s, 0)
    else
      match capWordAt (s.drop w) with
      | some (word, rest) =>
        let out := capPhraseExt k rest
        (s.take w ++ word ++ out.1, out.2.1, out.2.2 + 1)
      | none => ([], s, 0)

/-- One attempted match of `([A-Z][a-z]+(?:\s+[A-Z][a-z]+){1,3})`. -/
def capPhraseAt (s : Str) : Option (Str × Str) :=
  match capWordAt s with
  | some (w1, rest) =>
    let out := capPhraseExt 3 rest
    if out.2.2 = 0 then none else some (w1 ++ out.1, out.2.1)
  | none => none

def capPhraseScan (fuel : Nat) (s : Str) : List Str :=
  match fuel with
  | 0 => []
  | fuel + 1 =>
    match s with
    | [] => []
    | c :: cs =>
      match capPhraseAt (c :: cs) with
      | some (m, rest) => m :: capPhraseScan fuel rest
      | none => capPhraseScan fuel cs

/-- `re.findall(r'\b([A-Z][a-z]{3,})\b', s)`: whole word runs that are
an uppercase letter followed by at least three lowercase letters. -/
def capWords3 (s : Str) : List Str :=
  (wordRuns s).filter fun w =>
    match w with
    | c :: cs => isUpperAZ c && decide (3 ≤ cs.length) && cs.all isLowerAZ
    | [] => false

/-- `list(set(xs))` modelled as first-occurrence deduplication (CPython
set iteration order is unspecified; no theorem below depends on the
order, only on membership). -/
def dedupFirst (xs : List Str) : List Str :=
  xs.foldl (fun acc x => if acc.contains x then acc else acc ++ [x]) []

/-- Fallback-summary section for one topic
(`free_ai_helpers.get_summary` lines 256-276). -/
def freeSummaryTopicSection (sentences : List Str) (key_terms : List Str) (topic : Str) : Str :=
  let topic_sentences := sentences.filter fun s => hasSubstr topic s
  let head :=
    lit "## " ++ topic ++ lit "\n\n" ++
    (match topic_sentences with
     | s0 :: _ => s0 ++ lit "\n\n"
     | [] => []) ++
    lit "Key points:\n\n"
  let bullet_count := min 3 (topic_sentences.length - 1)
  let bullets := (List.range bullet_count).map fun j =>
    let idx := min (j + 1) (topic_sentences.length - 1)
    let point := topic_sentences.getD idx []
    let point := key_terms.foldl
      (fun p term =>
        if hasSubstr term p then pyReplace p term (lit "**" ++ term ++ lit "**") else p)
      point
    lit "• " ++ point ++ lit "\n"
  head ++ bullets.flatten ++ lit "\n"

/-- Fallback-summary generic chunk section
(`free_ai_helpers.get_summary` lines 279-293). -/
def freeSummaryChunkSection (sentences : List Str) (chunk_size : Nat) (i : Nat) : Str :=
  let start_idx := i * chunk_size
  let end_idx := min (start_idx + chunk_size) sentences.length
  let chunk := (sentences.drop start_idx).take (end_idx - start_idx)
  lit "## Topic " ++ natToStr (i + 1) ++ lit "\n\n" ++
  (match chunk with
   | c0 :: _ =>
     c0 ++ lit "\n\n" ++ lit "Key points:\n\n" ++
     ((List.range (min 3 (chunk.length - 1))).map fun j =>
       lit "• " ++ chunk.getD (j + 1) [] ++ lit "\n").flatten
   | [] => []) ++
  lit "\n"

/-- `free_ai_helpers.get_summary`.  When the API fails entirely it
builds a structured summary locally and still returns `success: True`;
the only failing outcome of this function is the exception handler,
reachable through `len(sentences) // max_bullets` when `max_bullets`
is zero and no topics were found. -/
def free_get_summary (api : ApiFun) (text : Str) (max_bullets : Nat) : OpResult Str :=
  let truncated_text := truncate10000 text
  let prompt :=
    lit "Create a structured summary of key concepts from this text:\n\n" ++
    truncated_text ++
    lit "\n\nStructure your response with:\n1. Major headings using markdown format (## Heading)\n2. Under each heading, provide:\n   - A clear definition or explanation\n   - Key points as bullet points\n   - Important terms in **bold**\n   - At least one example for each concept\n   - If diagrams were described, add [DIAGRAM: brief description]\n\nInclude max " ++
    natToStr max_bullets ++ lit " major headings. Use markdown formatting throughout."
  match api none prompt with
  | some generated_text => .ok (stripL generated_text)
  | none =>
    let sentences := splitSentences truncated_text
    let topics0 := sentences.flatMap fun s => capPhraseScan (s.length + 1) s
    let key_terms0 := sentences.flatMap fun s => capWords3 s
    let topics := (dedupFirst topics0).take max_bullets
    let key_terms := dedupFirst key_terms0
    let header := lit "# Key Concepts Summary\n\n"
    if topics.isEmpty then
      if max_bullets = 0 then
        .error (lit "Error generating summary: integer division or modulo by zero")
      else
        let chunk_size := sentences.length / max_bullets
        let body := ((List.range (min max_bullets (sentences.length / 5))).map
          (freeSummaryChunkSection sentences chunk_size)).flatten
        .ok (header ++ body)
    else
      let body := ((topics.take max_bullets).map
        (freeSummaryTopicSection sentences key_terms)).flatten
      .ok (header ++ body)

/-! ## `free_ai_helpers.get_reliable_url` and `get_resources` -/

def urlTemplates (topic : Str) : List (Str × List Str) :=
  let plus := pyReplace topic (lit " ") (lit "+")
  let under := pyReplace topic (lit " ") (lit "_")
  [(lit "Video",
    [lit "https://www.youtube.com/results?search_query=" ++ plus ++ lit "+lecture",
     lit "https://www.khanacademy.org/search?page_search_query=" ++ plus,
     lit "https://ed.ted.com/search?qs=" ++ plus]),
   (lit "Course",
    [lit "https://www.coursera.org/search?query=" ++ plus,
     lit "https://www.edx.org/search?q=" ++ plus,
     lit "https://ocw.mit.edu/search/?q=" ++ plus]),
   (lit "Article",
    [lit "https://en.wikipedia.org/wiki/" ++ under,
     lit "https://www.khanacademy.org/search?page_search_query=" ++ plus,
     lit "https://www.britannica.com/search?query=" ++ plus]),
   (lit "Book",
    [lit "https://openlibrary.org/search?q=" ++ plus,
     lit "https://books.google.com/books?q=" ++ plus])]

/-- `free_ai_helpers.get_reliable_url` (`random.choice` drawn at
counter `k`). -/
def get_reliable_url (g : Nat → Nat) (k : Nat) (topic : Str) (resource_type : Str) : Str :=
  let templates := urlTemplates topic
  let rtype :=
    if templates.any fun p => p.1 = resource_type then resource_type else lit "Article"
  let urls := ((templates.find? fun p => p.1 = rtype).map Prod.snd).getD []
  pyChoice g k urls []

def freeReliableSources (topic : Str) : List Resource :=
  let plus := pyReplace topic (lit " ") (lit "+")
  [⟨lit "Khan Academy: " ++ topic,
    lit "Khan Academy offers free educational resources on " ++ topic ++
      lit " with video lessons, practice exercises, and a personalized learning dashboard.",
    lit "Learning Platform",
    lit "https://www.khanacademy.org/search?referer=%2F&page_search_query=" ++ plus⟩,
   ⟨lit "Coursera Courses on " ++ topic,
    lit "Find university-level courses on " ++ topic ++
      lit " from top institutions, many of which offer free auditing options.",
    lit "Online Courses",
    lit "https://www.coursera.org/search?query=" ++ plus⟩,
   ⟨topic ++ lit " on MIT OpenCourseWare",
    lit "MIT OpenCourseWare offers free lecture notes, videos, and assignments from actual MIT courses related to " ++
      topic ++ lit ".",
    lit "Academic Resource",
    lit "https://ocw.mit.edu/search/?q=" ++ plus⟩,
   ⟨topic ++ lit " - Learning Resources",
    lit "Educational resources focusing on " ++ topic ++
      lit " from multiple sources, with tutorials, guides, and interactive learning materials.",
    lit "Educational Websites",
    lit "https://www.google.com/search?q=" ++ plus ++ lit "+learning+resources"⟩]

def stripEndWs (s : Str) : Str := (s.reverse.dropWhile isPyWs).reverse

/-- The fenced block of `re.search(r'```(?:json)?\s*([\s\S]*?)\s*```', s)`:
text between the first pair of triple backticks, with an optional
leading `json` tag and surrounding whitespace stripped. -/
def fenceMatch (s : Str) : Option Str :=
  match findSubIdx (lit "```") s with
  | none => none
  | some i =>
    let r := s.drop (i + 3)
    let r := if startsWithL (lit "json") r then r.drop 4 else r
    let r := r.dropWhile isPyWs
    match findSubIdx (lit "```") r with
    | none => none
    | some j => some (stripEndWs (r.take j))

/-- One attempted match of the fallback resource grammar
`- Title: "?(.*?)"?,\s*Type: "?(.*?)"?,\s*Description: "?(.*?)"?,\s*URL: "?(https?://[^"\s]+)`
(all lazy groups stop at the earliest following delimiter; quotes are
optional). -/
def dropQuote (s : Str) : Str :=
  match s with
  | '"' :: r => r
  | _ => s

/-- Lazily capture up to the earliest `"?,\s*` followed by the literal
`next`; returns the capture (without closing quote) and the remainder
after `next`. -/
def captureUntil (next : Str) (fuel : Nat) (acc : Str) (s : Str) : Option (Str × Str) :=
  match fuel with
  | 0 => none
  | fuel + 1 =>
    let stop :=
      match s with
      | '"' :: ',' :: r => some (r.dropWhile isPyWs)
      | ',' :: r => some (r.dropWhile isPyWs)
      | _ => none
    match stop with
    | some r =>
      if startsWithL next r then some (acc.reverse, r.drop next.length)
      else
        match s with
        | c :: cs => captureUntil next fuel (c :: acc) cs
        | [] => none
    | none =>
      match s with
      | c :: cs => captureUntil next fuel (c :: acc) cs
      | [] => none

def resourceGrammarAt (s : Str) : Option (Resource × Str) :=
  if startsWithL (lit "- Title: ") s then
    let r := dropQuote (s.drop 9)
    match captureUntil (lit "Type: ") (r.length + 1) [] r with
    | none => none
    | some (title, r2) =>
      let r2 := dropQuote r2
      match captureUntil (lit "Description: ") (r2.length + 1) [] r2 with
      | none => none
      | some (ty, r3) =>
        let r3 := dropQuote r3
        match captureUntil (lit "URL: ") (r3.length + 1) [] r3 with
        | none => none
        | some (desc, r4) =>
          let r4 := dropQuote r4
          let scheme :=
            if startsWithL (lit "https://") r4 then some 8
            else if startsWithL (lit "http://") r4 then some 7
            else none
          match scheme with
          | none => none
          | some n =>
            let urlRest := (r4.drop n).takeWhile fun c => !(c = '"') && !isPyWs c
            some (⟨stripL title, stripL ty, stripL desc,
                   stripL (r4.take n ++ urlRest)⟩,
                  (r4.drop n).drop urlRest.length)
  else none

def resourceGrammarScan (fuel : Nat) (s : Str) : List Resource :=
  match fuel with
  | 0 => []
  | fuel + 1 =>
    match s with
    | [] => []
    | c :: cs =>
      match resourceGrammarAt (c :: cs) with
      | some (r, rest) => r :: resourceGrammarScan fuel rest
      | none => resourceGrammarScan fuel cs

/-- Normalized resource item built from a parsed JSON object
(`free_ai_helpers.get_resources` lines 399-404): missing fields are
filled with deterministic defaults, a missing URL with
`get_reliable_url`.  Non-object items make the Python loop raise, which
the enclosing handler turns into the failure dict. -/
def jsonStrOr (j : Option Json) (dflt : Str) : Option Str :=
  match j with
  | some (.str s) => some s
  | some _ => none
  | none => some dflt

/-- Normalize one item; `none` models a raised exception (a non-object
item or a non-string field where Python would go on to raise when the
value is used as a dict key that is unhashable.)  String-valued and
missing fields follow the source exactly. -/
def normalizeResource (g : Nat → Nat) (k : Nat) (topic : Str) (i : Nat) (res : Json) :
    Option Resource :=
  match res with
  | .obj _ =>
    let titleV := jsonStrOr (jsonLookup res (lit "title")) (lit "Resource " ++ natToStr (i + 1))
    let typeV := jsonStrOr (jsonLookup res (lit "type")) (lit "Article")
    let descV := jsonStrOr (jsonLookup res (lit "description"))
      (lit "A resource about " ++ topic)
    match titleV, typeV, descV with
    | some title, some ty, some desc =>
      let urlV :=
        match jsonLookup res (lit "url") with
        | some (.str u) => some u
        | some _ => none
        | none => some (get_reliable_url g (k + i) topic ty)
      match urlV with
      | some url => some ⟨title, ty, desc, url⟩
      | none => none
    | _, _, _ => none
  | _ => none

/-- Collect normalized resources, propagating a raised exception. -/
def normalizeResources (g : Nat → Nat) (k : Nat) (topic : Str) (items : List Json) :
    Option (List Resource) :=
  let rec go (i : Nat) : List Json → Option (List Resource)
    | [] => some []
    | j :: rest =>
      match normalizeResource g k topic i j with
      | some r =>
        match go (i + 1) rest with
        | some rs => some (r :: rs)
        | none => none
      | none => none
  go 0 items

/-- `free_ai_helpers.get_resources`.  When the API fails entirely it
returns the generic reliable sources with `success: True`; the failure
dict is produced only by the exception handler. -/
def free_get_resources (api : ApiFun) (parseJson : Str → Option Json) (g : Nat → Nat)
    (topic : Str) (max_resources : Nat) : OpResult ResData :=
  let prompt :=
    lit "Suggest " ++ natToStr max_resources ++ lit " educational resources about \x27" ++
    topic ++
    lit "\x27. For each resource, provide: title, type (video, article, book, etc.), a brief description, and a URL. Format as JSON list."
  match api none prompt with
  | none =>
    .ok (.freeItems ((freeReliableSources topic).take (min max_resources 4)))
  | some generated_text =>
    let parsed : Option Json :=
      match fenceMatch generated_text with
      | some json_str => parseJson json_str
      | none => parseJson generated_text
    let itemsOrRaw : Except Unit (List Json) :=
      match parsed with
      | some (.arr xs) => .ok xs
      | some j =>
        (match jsonLookup j (lit "resources") with
         | some (.arr xs) => .ok xs
         | some _ => .error ()
         | none => .ok [])
      | none => .ok ((resourceGrammarScan (generated_text.length + 1) generated_text).map
          fun r => Json.obj
            [(lit "title", .str r.title), (lit "type", .str r.rtype),
             (lit "description", .str r.description), (lit "url", .str r.url)])
    match itemsOrRaw with
    | .error _ => .error (lit "Error generating resources: unexpected payload shape")
    | .ok items =>
      match normalizeResources g 0 topic (items.take max_resources) with
      | some rs => .ok (.freeItems rs)
      | none => .error (lit "Error generating resources: invalid resource item")

/-! ## Slide-title pattern `Slide \d+:?\s*([^0-9\n]+?)(?:\d|$)`

Shared by `content_processor.extract_main_topics` and several
`free_ai_helpers` functions.  The lazy title group grows until the next
digit (consumed) or `$`. -/

def upTo1 (n : Nat) : List Nat := (List.range n).map (· + 1)

def downFrom0 (n : Nat) : List Nat := (List.range (n + 1)).reverse

def slideTitleFrom (r : Str) : Option (Str × Str) :=
  let wmax := wsRun r
  (downFrom0 wmax).findSome? fun w =>
    let r2 := r.drop w
    let maxT := (r2.takeWhile fun c => !c.isDigit && !(c = '\n')).length
    (upTo1 maxT).findSome? fun t =>
      match r2.drop t with
      | c :: rest2 => if c.isDigit then some (r2.take t, rest2) else none
      | [] => some (r2.take t, [])

def slideTitleAt (s : Str) : Option (Str × Str) :=
  if startsWithL (lit "Slide ") s then
    let r0 := s.drop 6
    let d := digitRun r0
    if d.isEmpty then none
    else
      match r0.drop d.length with
      | ':' :: r2 =>
        (match slideTitleFrom r2 with
         | some x => some x
         | none => slideTitleFrom (r0.drop d.length))
      | r1 =>
        (match slideTitleFrom r1 with
         | some x =>
           -- `$` also matches just before a trailing newline: the title
           -- candidate that reaches a final "\n" only is accepted there.
           some x
         | none =>
           match r1 with
           | _ =>
             -- try the `$` alternative at a title ending just before a
             -- final newline
             let wmax := wsRun r1
             (downFrom0 wmax).findSome? fun w =>
               let r2 := r1.drop w
               let maxT := (r2.takeWhile fun c => !c.isDigit && !(c = '\n')).length
               (upTo1 maxT).findSome? fun t =>
                 if r2.drop t = ['\n'] then some (r2.take t, ['\n']) else none)
  else none

def slideTitleScan (fuel : Nat) (s : Str) : List Str :=
  match fuel with
  | 0 => []
  | fuel + 1 =>
    match s with
    | [] => []
    | c :: cs =>
      match slideTitleAt (c :: cs) with
      | some (title, rest) =>
        if rest.length < (c :: cs).length then title :: slideTitleScan fuel rest
        else title :: slideTitleScan fuel cs
      | none => slideTitleScan fuel cs

def findSlideTitles (s : Str) : List Str := slideTitleScan (s.length + 1) s

/-- Titles used in secondary-tier prompts
(`free_ai_helpers` lines 634-638 and 926-930). -/
def freeSlideTitles (txt : Str) : List Str :=
  (findSlideTitles txt).filterMap fun t =>
    let st := stripL t
    if 3 < st.length then some st else none

/-! ## Free-tier study-guide parsing cascade -/

/-- Case-insensitive literal prefix test (`p` given lowercase). -/
def startsWithCI (p : Str) (s : Str) : Bool := startsWithL p (pyLower (s.take p.length))

/-- A section header from `cands` (tried in alternation order) followed
by the separator class `(?::|;|\n)`. -/
def headerAt (cands : List Str) (s : Str) : Option Str :=
  cands.findSome? fun h =>
    if startsWithCI h s then
      match s.drop h.length with
      | c :: r => if c = ':' || c = ';' || c = '\n' then some r else none
      | [] => none
    else none

def searchHeader (cands : List Str) (fuel : Nat) (s : Str) : Option Str :=
  match fuel with
  | 0 => none
  | fuel + 1 =>
    match headerAt cands s with
    | some r => some r
    | none =>
      match s with
      | [] => none
      | _ :: cs => searchHeader cands fuel cs

/-- The lazy section body `(.*?)` grown until one of the stop headers
or `$`. -/
def takeUntilStop (stops : List Str) (fuel : Nat) (s : Str) : Str :=
  match fuel with
  | 0 => []
  | fuel + 1 =>
    if (stops.any fun h => startsWithCI h s) || atDollar s then []
    else
      match s with
      | [] => []
      | c :: cs => c :: takeUntilStop stops fuel cs

def sectionText (cands stops : List Str) (s : Str) : Option Str :=
  (searchHeader cands (s.length + 1) s).map fun r => takeUntilStop stops (r.length + 1) r

def bulletCh (c : Char) : Bool := c.isDigit || c = '*' || c = '-' || c = '•'

def bulletStart (s : Str) : Bool :=
  match s with
  | x :: _ => bulletCh x
  | [] => false

/-- Pattern 1/2 of the key-term cascade:
`[\d\*\-\•]*\s*([^:]+)[:]\s*(.*?)(?=[\d\*\-\•]|$)`; `minB` is the
minimal bullet-run length (0 for pattern 1, 1 for pattern 2). -/
def termBulletAt (minB : Nat) (s : Str) : Option ((Str × Str) × Str) :=
  let bmax := (s.takeWhile bulletCh).length
  if bmax < minB then none else
  ((downFrom0 bmax).filter (minB ≤ ·)).findSome? fun b =>
    let r1 := s.drop b
    let wmax := wsRun r1
    (downFrom0 wmax).findSome? fun w =>
      let r2 := r1.drop w
      let g1 := r2.takeWhile (· ≠ ':')
      if g1.isEmpty then none else
      match r2.drop g1.length with
      | ':' :: r3 =>
        let w2max := wsRun r3
        (downFrom0 w2max).findSome? fun w2 =>
          let r4 := r3.drop w2
          (upTo r4.length).findSome? fun c =>
            let rest := r4.drop c
            if bulletStart rest || atDollar rest then
              some ((g1, r4.take c), rest)
            else none
      | _ => none

/-- Pattern 3 stop: `(?=\n\n|\n[A-Z]|\Z)`. -/
def termP3Stop (rest : Str) : Bool :=
  match rest with
  | [] => true
  | '\n' :: '\n' :: _ => true
  | '\n' :: c :: _ => isUpperAZ c
  | _ => false

/-- Pattern 4 stop: `(?=\n\s*[^:]+:|\Z)`. -/
def termP4Stop (rest : Str) : Bool :=
  match rest with
  | [] => true
  | '\n' :: t =>
    (match t with
     | c :: _ => !(c = ':') && hasSubstr (lit ":") t
     | [] => false)
  | _ => false

/-- Patterns 3/4 of the key-term cascade: `([^:]+)[:]\s*(.*?)(?=stop)`. -/
def termPlainAt (stop : Str → Bool) (s : Str) : Option ((Str × Str) × Str) :=
  let g1 := s.takeWhile (· ≠ ':')
  if g1.isEmpty then none else
  match s.drop g1.length with
  | ':' :: r3 =>
    let w2max := wsRun r3
    (downFrom0 w2max).findSome? fun w2 =>
      let r4 := r3.drop w2
      (upTo r4.length).findSome? fun c =>
        let rest := r4.drop c
        if stop rest then some ((g1, r4.take c), rest) else none
  | _ => none

def pairScan (f : Str → Option ((Str × Str) × Str)) (fuel : Nat) (s : Str) :
    List (Str × Str) :=
  match fuel with
  | 0 => []
  | fuel + 1 =>
    match s with
    | [] => []
    | c :: cs =>
      match f (c :: cs) with
      | some (e, rest) =>
        if rest.length < (c :: cs).length then e :: pairScan f fuel rest
        else e :: pairScan f fuel cs
      | none => pairScan f fuel cs

/-- The four `term: definition` grammars tried in order, keeping the
first that yields any matches (lines 681-694). -/
def termEntriesOf (terms_text : Str) : List (Str × Str) :=
  let n := terms_text.length + 1
  let e1 := pairScan (termBulletAt 0) n terms_text
  if !e1.isEmpty then e1 else
  let e2 := pairScan (termBulletAt 1) n terms_text
  if !e2.isEmpty then e2 else
  let e3 := pairScan (termPlainAt termP3Stop) n terms_text
  if !e3.isEmpty then e3 else
  pairScan (termPlainAt termP4Stop) n terms_text

def termHeaderCands : List Str :=
  [lit "key terms", lit "key term", lit "terms", lit "term",
   lit "definitions", lit "definition"]

def termStopCands : List Str :=
  [lit "important concepts", lit "concepts", lit "flashcards"]

/-- Method 1: key terms from the marked section (lines 675-706). -/
def freeGuideKeyTerms (generated_text : Str) : List KeyTerm :=
  match sectionText termHeaderCands termStopCands generated_text with
  | none => []
  | some terms_text0 =>
    let terms_text := stripL terms_text0
    (termEntriesOf terms_text).filterMap fun td =>
      if !td.1.isEmpty && !td.2.isEmpty then
        let t := stripL td.1
        let d := stripL td.2
        if decide (1 < t.length) && decide (5 < d.length) then some ⟨t, d⟩ else none
      else none

/-- `(?:[^\n]+\n?){1,k}` greedily. -/
def repLines : Nat → Str → Str × Str
  | 0, s => ([], s)
  | k + 1, s =>
    let line := s.takeWhile (· ≠ '\n')
    if line.isEmpty then ([], s)
    else
      match s.drop line.length with
      | '\n' :: r =>
        let out := repLines k r
        (line ++ '\n' :: out.1, out.2)
      | r => (line, r)

def isAlphaWs (c : Char) : Bool := isLetterAZ c || isPyWs c

/-- Method 2: `([A-Z][a-zA-Z\s]{2,20}):\s*((?:[^\n]+\n?){1,3})`
(line 711). -/
def directTermAt (s : Str) : Option ((Str × Str) × Str) :=
  match s with
  | [] => none
  | c :: cs =>
    if isUpperAZ c then
      let fullRun := cs.takeWhile isAlphaWs
      if fullRun.length < 2 || 20 < fullRun.length then none else
      match cs.drop fullRun.length with
      | ':' :: r =>
        let wmax := wsRun r
        (downFrom0 wmax).findSome? fun w =>
          let r2 := r.drop w
          let out := repLines 3 r2
          if out.1.isEmpty then none
          else some ((c :: fullRun, out.1), out.2)
      | _ => none
    else none

def freeGuideDirectTerms (generated_text : Str) : List KeyTerm :=
  (pairScan directTermAt (generated_text.length + 1) generated_text).filterMap fun td =>
    let t := stripL td.1
    let d := stripL td.2
    if decide (1 < t.length) && decide (5 < d.length)
       && !([lit "question", lit "answer", lit "q", lit "a"].contains (pyLower t)) then
      some (⟨t, d⟩ : KeyTerm)
    else none

/-- Concept bullet grammar `[\d\*\-\•]+\s*(.*?)(?=[\d\*\-\•]+|$)`. -/
def conceptP1At (s : Str) : Option (Str × Str) :=
  let bmax := (s.takeWhile bulletCh).length
  (downFrom1 bmax).findSome? fun b =>
    let r1 := s.drop b
    let wmax := wsRun r1
    (downFrom0 wmax).findSome? fun w =>
      let r2 := r1.drop w
      (upTo r2.length).findSome? fun c =>
        let rest := r2.drop c
        if bulletStart rest || atDollar rest then some (r2.take c, rest) else none

/-- Concept paragraph grammar `(?:^|\n)\s*((?:[^\n]+\n?){1,3})`
(`^` is the absolute start since `re.MULTILINE` is not set). -/
def conceptP2At (isStart : Bool) (s : Str) : Option (Str × Str) :=
  let attempt (r : Str) : Option (Str × Str) :=
    let wmax := wsRun r
    (downFrom0 wmax).findSome? fun w =>
      let out := repLines 3 (r.drop w)
      if out.1.isEmpty then none else some (out.1, out.2)
  if isStart then attempt s
  else
    match s with
    | '\n' :: r => attempt r
    | _ => none

def singleScan (f : Str → Option (Str × Str)) (fuel : Nat) (s : Str) : List Str :=
  match fuel with
  | 0 => []
  | fuel + 1 =>
    match s with
    | [] => []
    | c :: cs =>
      match f (c :: cs) with
      | some (e, rest) =>
        if rest.length < (c :: cs).length then e :: singleScan f fuel rest
        else e :: singleScan f fuel cs
      | none => singleScan f fuel cs

def conceptP2Scan (fuel : Nat) (isStart : Bool) (s : Str) : List Str :=
  match fuel with
  | 0 => []
  | fuel + 1 =>
    match conceptP2At isStart s with
    | some (e, rest) =>
      if rest.length < s.length then e :: conceptP2Scan fuel false rest
      else
        match s with
        | [] => [e]
        | _ :: cs => e :: conceptP2Scan fuel false cs
    | none =>
      match s with
      | [] => []
      | _ :: cs => conceptP2Scan fuel false cs

/-- Inner concept extraction for one section (lines 732-745). -/
def conceptsFromSection (txt : Str) : List Str :=
  let e1 := singleScan conceptP1At (txt.length + 1) txt
  let entries := if !e1.isEmpty then e1 else conceptP2Scan (txt.length + 1) true txt
  entries.filterMap fun c =>
    let c' := stripL c
    if !c'.isEmpty && decide (10 < c'.length) then some c' else none

/-- Both concept-section patterns are searched and appended
(the outer Python loop has no `break`, lines 722-745). -/
def freeGuideConcepts (generated_text : Str) : List Str :=
  let fromA :=
    match sectionText [lit "important concepts", lit "concepts"] [lit "flashcards"] generated_text with
    | some t => conceptsFromSection (stripL t)
    | none => []
  let fromB :=
    match sectionText [lit "key concepts"] [lit "flashcards"] generated_text with
    | some t => conceptsFromSection (stripL t)
    | none => []
  fromA ++ fromB

def conceptKeyPhrases : List Str :=
  [lit "is defined as", lit "refers to", lit "is a concept",
   lit "important to note", lit "key concept"]

/-- Direct concept fallback over the generated text (lines 748-755). -/
def freeGuideDirectConcepts (generated_text : Str) : List Str :=
  (splitSentences generated_text).filterMap fun s =>
    if (conceptKeyPhrases.any fun p => hasSubstr p (pyLower s)) && decide (20 < s.length) then
      some (stripL s)
    else none

/-- `Q:`/`Question:` marker (alternation order preserved). -/
def qMarkerAt (s : Str) : Option Str :=
  if startsWithCI (lit "q:") s then some (s.drop 2)
  else if startsWithCI (lit "question:") s then some (s.drop 9)
  else none

def aMarkerAt (s : Str) : Option Str :=
  if startsWithCI (lit "a:") s then some (s.drop 2)
  else if startsWithCI (lit "answer:") s then some (s.drop 7)
  else none

/-- QA pattern 1 lookahead `(?=[\d\*\-\•]\s*(?:Q:|Question:)|$)`. -/
def qa1Stop (rest : Str) : Bool :=
  (match rest with
   | x :: r =>
     bulletCh x &&
       (let r2 := r.dropWhile isPyWs
        (qMarkerAt r2).isSome)
   | [] => false) || atDollar rest

/-- QA pattern 1:
`[\d\*\-\•]*\s*(?:Q:|Question:)?\s*([^?]*\?)\s*(?:A:|Answer:)?\s*(.*?)(?=...)`. -/
def qa1At (s : Str) : Option ((Str × Str) × Str) :=
  let r1 := (s.dropWhile bulletCh).dropWhile isPyWs
  let r2 := match qMarkerAt r1 with | some r => r | none => r1
  let r2b := r2.dropWhile isPyWs
  let g1pre := r2b.takeWhile (· ≠ '?')
  match r2b.drop g1pre.length with
  | '?' :: r3 =>
    let r4 := r3.dropWhile isPyWs
    let r5 := match aMarkerAt r4 with | some r => r | none => r4
    let r6 := r5.dropWhile isPyWs
    (upTo r6.length).findSome? fun c =>
      let rest := r6.drop c
      if qa1Stop rest then some ((g1pre ++ ['?'], r6.take c), rest) else none
  | _ => none

/-- QA pattern 2:
`(?:Q:|Question:)\s*([^?]*\?)\s*(?:A:|Answer:)\s*(.*?)(?=(?:Q:|Question:)|$)`. -/
def qa2At (s : Str) : Option ((Str × Str) × Str) :=
  match qMarkerAt s with
  | none => none
  | some r1 =>
    let r2 := r1.dropWhile isPyWs
    let g1pre := r2.takeWhile (· ≠ '?')
    match r2.drop g1pre.length with
    | '?' :: r3 =>
      match aMarkerAt (r3.dropWhile isPyWs) with
      | none => none
      | some r5 =>
        let r6 := r5.dropWhile isPyWs
        (upTo r6.length).findSome? fun c =>
          let rest := r6.drop c
          if (qMarkerAt rest).isSome || atDollar rest then
            some ((g1pre ++ ['?'], r6.take c), rest)
          else none
    | _ => none

/-- QA pattern 3 stop `(?=\d+\.\s*|$)`. -/
def qa3Stop (rest : Str) : Bool :=
  (let d := digitRun rest
   !d.isEmpty &&
     (match rest.drop d.length with
      | '.' :: _ => true
      | _ => false)) || atDollar rest

/-- QA pattern 3: `(\d+\.\s*[^?]*\?)\s*(.*?)(?=\d+\.\s*|$)`. -/
def qa3At (s : Str) : Option ((Str × Str) × Str) :=
  let d := digitRun s
  if d.isEmpty then none else
  match s.drop d.length with
  | '.' :: r1 =>
    let r2 := r1.dropWhile isPyWs
    let g1pre := r2.takeWhile (· ≠ '?')
    (match r2.drop g1pre.length with
     | '?' :: r3 =>
       let cap1 := d ++ '.' :: r1.take (r1.length - r2.length) ++ g1pre ++ ['?']
       let r4 := r3.dropWhile isPyWs
       (upTo r4.length).findSome? fun c =>
         let rest := r4.drop c
         if qa3Stop rest then some ((cap1, r4.take c), rest) else none
     | _ => none)
  | _ => none

/-- Flashcards from one section text: the three QA grammars tried in
order, first non-empty wins (lines 769-786). -/
def cardsFromSection (txt : Str) : List Flashcard :=
  let n := txt.length + 1
  let e1 := pairScan qa1At n txt
  let entries :=
    if !e1.isEmpty then e1
    else
      let e2 := pairScan qa2At n txt
      if !e2.isEmpty then e2 else pairScan qa3At n txt
  entries.filterMap fun qa =>
    let q := stripL qa.1
    let a := stripL qa.2
    if !q.isEmpty && !a.isEmpty && hasSubstr (lit "?") q then
      some (⟨q, a⟩ : Flashcard)
    else none

/-- Both flashcard-section patterns are searched and appended
(lines 757-786). -/
def freeGuideFlashcards (generated_text : Str) : List Flashcard :=
  let fromA :=
    match sectionText [lit "flashcards"] [] generated_text with
    | some t => cardsFromSection (stripL t)
    | none => []
  let fromB :=
    match sectionText [lit "study cards", lit "question", lit "questions"] [] generated_text with
    | some t => cardsFromSection (stripL t)
    | none => []
  fromA ++ fromB

/-- `\s+[A-Z]?[a-z]+` ending at a word boundary. -/
def extWordAt (s : Str) : Option (Str × Str) :=
  let w := wsRun s
  if w = 0 then none else
  let r := s.drop w
  let body : Option (Str × Str) :=
    match r with
    | c :: cs =>
      if isUpperAZ c then
        let lr := lowerRun cs
        if lr.isEmpty then none else some (c :: lr, cs.drop lr.length)
      else if isLowerAZ c then
        let lr := lowerRun cs
        some (c :: lr, cs.drop lr.length)
      else none
    | [] => none
  match body with
  | some (wrd, rest) =>
    if (match rest with | d :: _ => isWordCh d | [] => false) then none
    else some (s.take w ++ wrd, rest)
  | none => none

/-- `\b([A-Z][a-z]{3,}(?:\s+[A-Z]?[a-z]+){0,2})\b` at the start
(extensions greedy). -/
def capTermAt (s : Str) : Option (Str × Str) :=
  match s with
  | [] => none
  | c :: cs =>
    if isUpperAZ c then
      let lr := lowerRun cs
      if lr.length < 3 then none else
      let rest0 := cs.drop lr.length
      if (match rest0 with | d :: _ => isWordCh d | [] => false) then none
      else
        let w1 := c :: lr
        match extWordAt rest0 with
        | some (e1, rest1) =>
          (match extWordAt rest1 with
           | some (e2, rest2) => some (w1 ++ e1 ++ e2, rest2)
           | none => some (w1 ++ e1, rest1))
        | none => some (w1, rest0)
    else none

def capTermScan (fuel : Nat) (s : Str) : List Str :=
  match fuel with
  | 0 => []
  | fuel + 1 =>
    match s with
    | [] => []
    | c :: cs =>
      match capTermAt (c :: cs) with
      | some (m, rest) => m :: capTermScan fuel rest
      | none => capTermScan fuel cs

/-- Key-term fallback from the source text (lines 789-825). -/
def freeGuideKeyTermsFallback (truncated_text : Str) : List KeyTerm :=
  let cap_terms := capTermScan (truncated_text.length + 1) truncated_text
  let slide_titles := findSlideTitles truncated_text
  let potential0 := slide_titles.filterMap fun t =>
    let ts := stripL t
    if [lit "introduction", lit "summary", lit "conclusion", lit "overview"].contains
        (pyLower ts) then none
    else some ts
  let potential := cap_terms.foldl
    (fun acc term =>
      if acc.contains term || term.length ≤ 4 then acc else acc ++ [term])
    potential0
  let sentences := splitSentences truncated_text
  (potential.take 5).map fun term =>
    let term_sentences := sentences.filter fun s =>
      hasSubstr term s && decide (20 < s.length)
    let definition := term_sentences.headD
      (lit "An important concept related to " ++ term ++ lit ".")
    ⟨term, definition⟩

def freeConceptCues : List Str :=
  [lit "is ", lit "refers to", lit "defined as", lit "technique", lit "method"]

/-- Concept fallback from the source text (lines 827-843; the
`slide_headers` local of the source is computed but never used). -/
def freeGuideConceptsFallback (truncated_text : Str) : List Str :=
  let concept_sentences := (splitSentences truncated_text).filter fun s =>
    (freeConceptCues.any fun p => hasSubstr p (pyLower s)) && decide (25 < s.length)
  concept_sentences.take 5

/-- `re.split(r' is | refers to | means ', sentence, maxsplit=1)`. -/
def splitFirstSepGo (fuel : Nat) (acc : Str) (s : Str) : List Str :=
  match fuel with
  | 0 => [acc.reverse ++ s]
  | fuel + 1 =>
    match s with
    | [] => [acc.reverse]
    | c :: cs =>
      if startsWithL (lit " is ") (c :: cs) then [acc.reverse, (c :: cs).drop 4]
      else if startsWithL (lit " refers to ") (c :: cs) then [acc.reverse, (c :: cs).drop 11]
      else if startsWithL (lit " means ") (c :: cs) then [acc.reverse, (c :: cs).drop 7]
      else splitFirstSepGo fuel (c :: acc) cs

def splitFirstSep (s : Str) : List Str := splitFirstSepGo (s.length + 1) [] s

/-- Flashcard fallback slide-title loop (lines 852-871), capped at 5. -/
def freeFlashTitlesGo (sentences : List Str) : List Str → Nat → List Flashcard → List Flashcard
  | [], _, acc => acc.reverse
  | t :: rest, created, acc =>
    if 5 ≤ created then acc.reverse
    else
      let title := stripL t
      if decide (5 < title.length)
         && !([lit "introduction", lit "summary", lit "conclusion"].contains (pyLower title)) then
        let words := pySplit (pyLower title)
        let related := sentences.filter fun s =>
          words.any fun w => decide (3 < w.length) && hasSubstr w (pyLower s)
        match related with
        | r0 :: _ =>
          freeFlashTitlesGo sentences rest (created + 1)
            (⟨lit "What is " ++ title ++ lit "?", r0⟩ :: acc)
        | [] => freeFlashTitlesGo sentences rest created acc
      else freeFlashTitlesGo sentences rest created acc

/-- Flashcard fallback definitional loop (lines 874-886), capped at 5
cards in total. -/
def freeFlashDefnGo : List Str → Nat → List Flashcard → List Flashcard
  | [], _, acc => acc.reverse
  | s :: rest, created, acc =>
    if 5 ≤ created then acc.reverse
    else if hasSubstr (lit " is ") s || hasSubstr (lit " refers to ") s then
      let parts := splitFirstSep s
      match parts with
      | [p0, p1] =>
        if decide (3 < p0.length) && decide (10 < p1.length) then
          freeFlashDefnGo rest (created + 1)
            (⟨lit "What is " ++ stripL p0 ++ lit "?", stripL p1⟩ :: acc)
        else freeFlashDefnGo rest created acc
      | _ => freeFlashDefnGo rest created acc
    else freeFlashDefnGo rest created acc

def freeGuideFlashcardsFallback (truncated_text : Str) : List Flashcard :=
  let sentences := splitSentences truncated_text
  let slide_titles := findSlideTitles truncated_text
  let fromTitles := freeFlashTitlesGo sentences slide_titles 0 []
  if fromTitles.length < 5 then
    fromTitles ++ freeFlashDefnGo sentences fromTitles.length []
  else fromTitles

/-- Final floor defaults (lines 889-902): any still-empty section gets
exactly one hardcoded entry. -/
def finalizeGuideSections (s : GuideSections) : GuideSections :=
  ⟨if s.key_terms.isEmpty then
     [⟨lit "Clustering",
       lit "An unsupervised learning technique that involves grouping data points into clusters based on similarity."⟩]
   else s.key_terms,
   if s.important_concepts.isEmpty then
     [lit "Clustering is an unsupervised learning technique that groups similar data points together."]
   else s.important_concepts,
   if s.flashcards.isEmpty then
     [⟨lit "What is the purpose of clustering?",
       lit "The aim is to organize data into clusters so that objects in the same cluster are more similar to each other than to those in other clusters."⟩]
   else s.flashcards⟩

def flanUrl : Str := lit "https://api-inference.huggingface.co/models/google/flan-t5-xxl"

/-- Sections of the secondary-tier study guide computed from the
generated response (lines 666-902): the tiered parsing cascade, the
source-text fallbacks, then the floor defaults. -/
def freeGuideSectionsOf (truncated_text generated_text : Str) : GuideSections :=
  let kts0 := freeGuideKeyTerms generated_text
  let kts1 := if kts0.isEmpty then freeGuideDirectTerms generated_text else kts0
  let ics0 := freeGuideConcepts generated_text
  let ics1 := if ics0.isEmpty then freeGuideDirectConcepts generated_text else ics0
  let fcs0 := freeGuideFlashcards generated_text
  let kts2 := if kts1.isEmpty then freeGuideKeyTermsFallback truncated_text else kts1
  let ics2 := if ics1.isEmpty then freeGuideConceptsFallback truncated_text else ics1
  let fcs1 := if fcs0.isEmpty then freeGuideFlashcardsFallback truncated_text else fcs0
  finalizeGuideSections ⟨kts2, ics2, fcs1⟩

/-- `free_ai_helpers.generate_study_guide`. -/
def free_generate_study_guide (api : ApiFun) (text : Str) : OpResult GuideData :=
  let truncated_text := truncate10000 text
  let slide_titles := freeSlideTitles truncated_text
  let slide_text :=
    if !slide_titles.isEmpty then
      lit "Focus on these key topics from the lecture slides:\n" ++
        joinWith (lit "\n") ((slide_titles.take 10).map fun t => lit "- " ++ t)
    else []
  let prompt :=
    lit "Create a comprehensive study guide from this educational content. " ++ slide_text ++
    lit "\n\nInclude these specific sections in your response:\n\n1. KEY TERMS: 5-7 important terms with clear definitions\n2. IMPORTANT CONCEPTS: 5 key concepts presented as bullet points\n3. FLASHCARDS: 5 question-answer pairs formatted as \x27Q: [question]\x27 and \x27A: [answer]\x27\n\nFormat your response with clear section headings. Make sure all definitions are accurate and examples are relevant.\n\n" ++
    truncated_text
  let generated :=
    match api none prompt with
    | some t => some t
    | none => api (some flanUrl) prompt
  match generated with
  | none => .error (lit "Unable to generate study guide. Please try again later.")
  | some generated_text =>
    .ok (.parsed (freeGuideSectionsOf truncated_text generated_text))

/-! ## `free_ai_helpers.generate_quiz` -/

/-- `re.split(r'\d+\.\s+', s)`. -/
def numDotSplitGo (fuel : Nat) (acc : Str) (s : Str) : List Str :=
  match fuel with
  | 0 => [acc.reverse ++ s]
  | fuel + 1 =>
    match s with
    | [] => [acc.reverse]
    | c :: cs =>
      let d := digitRun (c :: cs)
      if !d.isEmpty then
        match (c :: cs).drop d.length with
        | '.' :: r =>
          let w := wsRun r
          if 0 < w then acc.reverse :: numDotSplitGo fuel [] (r.drop w)
          else numDotSplitGo fuel (c :: acc) cs
        | _ => numDotSplitGo fuel (c :: acc) cs
      else numDotSplitGo fuel (c :: acc) cs

def numDotSplit (s : Str) : List Str := numDotSplitGo (s.length + 1) [] s

/-- Option line `([A-D])(?:\.|\))\s+([^\n]+)` (case-sensitive). -/
def optMatchAt (s : Str) : Option ((Str × Str) × Str) :=
  match s with
  | a :: p :: rest =>
    if (a = 'A' || a = 'B' || a = 'C' || a = 'D') && (p = '.' || p = ')') then
      let w := wsRun rest
      if w = 0 then none else
      let r := rest.drop w
      let line := r.takeWhile (· ≠ '\n')
      if line.isEmpty then none else some (([a], line), r.drop line.length)
    else none
  | _ => none

/-- Python dict assignment `d[k] = v`: update in place or append. -/
def dictInsert (d : List (Str × Str)) (k v : Str) : List (Str × Str) :=
  if d.any fun p => p.1 = k then
    d.map fun p => if p.1 = k then (k, v) else p
  else d ++ [(k, v)]

def abcd : List Str := [lit "A", lit "B", lit "C", lit "D"]

/-- Placeholder padding loop (lines 987-991). -/
def padOptions : Nat → List (Str × Str) → List (Str × Str)
  | 0, d => d
  | fuel + 1, d =>
    if d.length < 4 then
      match abcd.filter (fun o => !(d.any fun p => p.1 = o)) with
      | [] => d
      | m :: _ => padOptions fuel (dictInsert d m (lit "Option " ++ m))
    else d

/-- `[A-D]` under `re.IGNORECASE` also matches `a`-`d`. -/
def isABCDci (c : Char) : Bool := ('A' ≤ c && c ≤ 'D') || ('a' ≤ c && c ≤ 'd')

/-- `[^A-D]*([A-D])` under `re.IGNORECASE`: skip to the first letter
A-D of either case and capture it with its original case. -/
def correctTail (r : Str) : Option Str :=
  match r.dropWhile fun c => !isABCDci c with
  | c :: _ => some [c]
  | [] => none

/-- One attempted match of
`(?:Answer|Correct(?:\s+Answer)?|The correct answer is)[^A-D]*([A-D])`
(`re.IGNORECASE`). -/
def correctAt (s : Str) : Option Str :=
  if startsWithCI (lit "answer") s then correctTail (s.drop 6)
  else if startsWithCI (lit "correct") s then
    let r := s.drop 7
    let w := wsRun r
    let withAns :=
      if 0 < w && startsWithCI (lit "answer") (r.drop w) then
        correctTail ((r.drop w).drop 6)
      else none
    (match withAns with
     | some x => some x
     | none => correctTail r)
  else if startsWithCI (lit "the correct answer is") s then correctTail (s.drop 21)
  else none

def searchOpt (f : Str → Option Str) (fuel : Nat) (s : Str) : Option Str :=
  match fuel with
  | 0 => none
  | fuel + 1 =>
    if (f s).isSome then f s
    else
      match s with
      | [] => none
      | _ :: cs => searchOpt f fuel cs

/-- `\s*([^\n]+)` after the chosen colon of the explanation pattern. -/
def explTailAt (r : Str) : Option Str :=
  let wmax := wsRun r
  (downFrom0 wmax).findSome? fun w =>
    let cap := (r.drop w).takeWhile (· ≠ '\n')
    if cap.isEmpty then none else some cap

/-- One attempted match of `(?:Explanation|Reason)[^\n]*:\s*([^\n]+)`
(`re.IGNORECASE`); the greedy `[^\n]*` prefers the rightmost colon on
the marker's line. -/
def explAt (s : Str) : Option Str :=
  let go (n : Nat) : Option Str :=
    let rest := s.drop n
    let line := rest.takeWhile (· ≠ '\n')
    ((line.enum.filterMap fun p => if p.2 = ':' then some p.1 else none).reverse).findSome?
      fun k => explTailAt (rest.drop (k + 1))
  if startsWithCI (lit "explanation") s then go 11
  else if startsWithCI (lit "reason") s then go 6
  else none

/-- One question block (lines 968-1006); `none` models `continue`. -/
def parseQuizBlock (num_questions : Nat) (i : Nat) (q_text : Str) : Option PyQuestion :=
  if (stripL q_text).isEmpty || num_questions ≤ i then none else
  match q_text with
  | [] => none
  | c :: _ =>
    if c = '\n' then none
    else
      let question := stripL (q_text.takeWhile (· ≠ '\n'))
      let opts0 := (pairScan optMatchAt (q_text.length + 1) q_text).foldl
        (fun d kv => dictInsert d kv.1 kv.2) []
      let options := padOptions 4 opts0
      let correct_answer := (searchOpt correctAt (q_text.length + 1) q_text).getD (lit "A")
      let explanation := (searchOpt explAt (q_text.length + 1) q_text).getD
        (lit "See the text for details.")
      some ⟨question, options, correct_answer, explanation⟩

/-- `re.findall(r'\b[A-Z][a-z]{5,}\b', s)`. -/
def capWords5 (s : Str) : List Str :=
  (wordRuns s).filter fun w =>
    match w with
    | c :: cs => isUpperAZ c && decide (5 ≤ cs.length) && cs.all isLowerAZ
    | [] => false

/-- Fill-in-the-blank synthesis loop (lines 1009-1038); `i` continues
from the number of parsed questions, `k` is the random counter. -/
def synthFill (g : Nat → Nat) (sentences keywords : List Str) (num_questions : Nat) :
    Nat → Nat → Nat → List PyQuestion → List PyQuestion
  | _, _, 0, acc => acc.reverse
  | i, k, fuel + 1, acc =>
    if num_questions ≤ i then acc.reverse
    else if i < sentences.length && decide (5 < wordCount (sentences.getD i [])) then
      let sentence := sentences.getD i []
      let words := pySplit sentence
      if 3 < words.length then
        let blank_idx := 1 + g k % (words.length - 2)
        let blank_word := words.getD blank_idx []
        let question_text :=
          joinWith (lit " ") (words.take blank_idx ++ [lit "_____"] ++ words.drop (blank_idx + 1))
        let options : List (Str × Str) :=
          [(lit "A", blank_word),
           (lit "B", if i < keywords.length then keywords.getD (i % keywords.length) []
                     else lit "alternative"),
           (lit "C", if i + 1 < keywords.length then keywords.getD ((i + 1) % keywords.length) []
                     else lit "option"),
           (lit "D", if i + 2 < keywords.length then keywords.getD ((i + 2) % keywords.length) []
                     else lit "choice")]
        let q : PyQuestion :=
          ⟨lit "Fill in the blank: " ++ question_text, options, lit "A",
           lit "The complete sentence is: " ++ sentence⟩
        synthFill g sentences keywords num_questions (i + 1) (k + 1) fuel (q :: acc)
      else synthFill g sentences keywords num_questions (i + 1) k fuel acc
    else synthFill g sentences keywords num_questions (i + 1) k fuel acc

/-- Question list of the secondary-tier quiz computed from the
generated response (lines 959-1038): split into numbered blocks, parse
each block, then synthesize fill-in-the-blank questions up to the
requested count. -/
def freeQuizQuestionsOf (g : Nat → Nat) (truncated_text generated_text : Str)
    (num_questions : Nat) : List PyQuestion :=
  let questions0 := numDotSplit generated_text
  let questions :=
    match questions0 with
    | q0 :: rest => if (stripL q0).isEmpty then rest else questions0
    | [] => []
  let quiz0 := questions.enum.filterMap fun p => parseQuizBlock num_questions p.1 p.2
  if quiz0.length < num_questions then
    let sentences := splitSentences truncated_text
    let keywords := capWords5 truncated_text
    quiz0 ++ synthFill g sentences keywords num_questions quiz0.length 0
      (num_questions - quiz0.length) []
  else quiz0

/-- `free_ai_helpers.generate_quiz`. -/
def free_generate_quiz (api : ApiFun) (g : Nat → Nat) (text : Str) (num_questions : Nat) :
    OpResult QuizData :=
  let truncated_text := truncate10000 text
  let slide_titles := freeSlideTitles truncated_text
  let slide_text :=
    if !slide_titles.isEmpty then
      lit "Focus questions on these key topics from the slides:\n" ++
        joinWith (lit "\n") ((slide_titles.take 10).map fun t => lit "- " ++ t)
    else []
  let prompt :=
    lit "Create a quiz with " ++ natToStr num_questions ++
    lit " multiple-choice questions based on this lecture content. " ++ slide_text ++
    lit "\n\nFor each question:\n1. Make the question clear and specific\n2. Provide exactly 4 options labeled A, B, C, and D\n3. Make sure only ONE option is correct\n4. Clearly mark the correct answer (e.g., \x27Correct Answer: B\x27)\n5. Include a brief explanation of why the answer is correct\n\nFormat each question with a number, followed by options on separate lines.\n\n" ++
    truncated_text
  let generated :=
    match api none prompt with
    | some t => some t
    | none => api (some flanUrl) prompt
  match generated with
  | none => .error (lit "Unable to generate quiz. Please try again later.")
  | some generated_text =>
    .ok (.parsedFree (freeQuizQuestionsOf g truncated_text generated_text num_questions))

/-! ## `content_processor.extract_main_topics`

NLTK tokenizers and the stopword corpus are external resources; they
enter as the `Nlp` parameter (its `stopwords` field is whichever list
the `try/except` around `stopwords.words` produced).  The enclosing
`try/except` of the Python function can only return the first five
words of the input on an internal exception, which the total embedding
has no counterpart for. -/

structure Nlp where
  wordTokenize : Str → List Str
  sentTokenize : Str → List Str
  stopwords : List Str

/-- Lines 49-50: `re.sub(r'[^\w\s]', ' ', text)` then
`re.sub(r'\s+', ' ', text).strip()`. -/
def cleanText (t : Str) : Str :=
  stripL (pyCollapseWs (t.map fun c => if isWordCh c || isPyWs c then c else ' '))

def topic_keywords : List Str :=
  [lit "topic:", lit "subject:", lit "about:", lit "focuses on:"]

/-- Explicit-marker scan (lines 53-61): first keyword that occurs, text
up to the next period, accepted only with 3-10 words; a non-qualifying
hit falls through to the next keyword and then past the loop. -/
def markerTopic (text : Str) : Option Str :=
  topic_keywords.findSome? fun kw =>
    let lower := pyLower text
    if hasSubstr kw lower then
      match findSubIdx kw lower with
      | some i =>
        let idx := i + kw.length
        (match pyFindCharFrom text '.' idx with
         | some e =>
           if 0 < e then
             let topic := stripL ((text.drop idx).take (e - idx))
             if 3 ≤ wordCount topic && wordCount topic ≤ 10 then some topic else none
           else none
         | none => none)
      | none => none
    else none

/-- `max(set(xs), key=xs.count)`: a most frequent element.  CPython
iterates the set in unspecified order; this model takes the first
occurrence order (no theorem below depends on a tie). -/
def maxCountFirst (xs : List Str) : Str :=
  match dedupFirst xs with
  | [] => []
  | d :: rest => rest.foldl (fun best x => if xs.count best < xs.count x then x else best) d

/-- Slide-title heuristic (lines 63-71). -/
def slideTopic (text : Str) : Option Str :=
  let slide_titles := findSlideTitles text
  if slide_titles.isEmpty then none
  else
    let filtered := slide_titles.filterMap fun title =>
      let st := stripL title
      if wordCount title ≤ 5 && decide (3 < st.length) then some st else none
    if filtered.isEmpty then none else some (maxCountFirst filtered)

/-- Stable insertion by strictly greater count (ties keep insertion
order), the ordering of `Counter.most_common`. -/
def insertDescBy (p : Str × Nat) : List (Str × Nat) → List (Str × Nat)
  | [] => [p]
  | q :: rest => if q.2 < p.2 then p :: q :: rest else q :: insertDescBy p rest

def mostCommon (n : Nat) (counts : List (Str × Nat)) : List (Str × Nat) :=
  (counts.foldl (fun acc p => insertDescBy p acc) []).take n

def minByWC (xs : List Str) : Str :=
  match xs with
  | [] => []
  | x :: rest => rest.foldl (fun best c => if wordCount c < wordCount best then c else best) x

/-- Frequency-analysis branch (lines 74-112). -/
def nlpTopic (nlp : Nlp) (text : Str) : Option Str :=
  let words := (nlp.wordTokenize (pyLower text)).filter fun w =>
    !(nlp.stopwords.contains w) && decide (3 < w.length)
  let most_common_words := (mostCommon 15 (countsOf words)).map Prod.fst
  let sentences := nlp.sentTokenize text
  let topic_candidates := (sentences.take 10).filterMap fun sent =>
    if most_common_words.any fun w => hasSubstr w (pyLower sent) then some (stripL sent)
    else none
  if topic_candidates.isEmpty then none
  else
    match topic_candidates.findSome? fun c =>
      let wc := wordCount c
      if 10 ≤ wc && wc ≤ 30 then some (joinWith (lit " ") ((pySplit c).take 7))
      else if wc < 10 then some c
      else none with
    | some r => some r
    | none => some (joinWith (lit " ") ((pySplit (minByWC topic_candidates)).take 5))

/-- Simple fallback (lines 117-131). -/
def simpleTopicFallback (stopwords : List Str) (text : Str) : Str :=
  let first_sentence := (pySplitOn (lit ".") text).headD []
  let words := pySplit first_sentence
  let clean_words := (words.filter fun w =>
    decide (3 < w.length) && !(stopwords.contains (pyLower w))).take 5
  if clean_words.isEmpty && !words.isEmpty then joinWith (lit " ") (words.take 5)
  else joinWith (lit " ") clean_words

/-- `content_processor.extract_main_topics` (`top_n` is unused by the
returned value in the source as well). -/
def extract_main_topics (nlp : Nlp) (text : Str) (_top_n : Nat) : Str :=
  let text := cleanText text
  match markerTopic text with
  | some t => t
  | none =>
    match slideTopic text with
    | some t => t
    | none =>
      match nlpTopic nlp text with
      | some t => t
      | none => simpleTopicFallback nlp.stopwords text

/-! ## `content_processor` capability wrappers

Each wrapper is `orchestrate` over the three embedded tier functions,
with the external-world parameters (OpenAI client and response, the
secondary API, `json.loads`, the random stream) threaded through. -/

def static_resources_data (text : Str) (max_resources : Nat) : OpResult ResData :=
  (get_static_resources text max_resources).map ResData.staticItems

def static_guide_data (text : Str) : OpResult GuideData :=
  (generate_static_study_guide text).map GuideData.parsed

def static_quiz_data (g : Nat → Nat) (text : Str) (num_questions : Nat) : OpResult QuizData :=
  (generate_static_quiz g text num_questions).map QuizData.parsedStatic

/-- `content_processor.get_summary`. -/
def get_summary (clientPresent : Bool) (resp : Except Str Str) (api : ApiFun)
    (text : Str) (max_bullets : Nat) : OpResult Str × List Tier :=
  orchestrate (openai_get_summary clientPresent resp text max_bullets)
    (free_get_summary api text max_bullets)
    (get_static_summary text max_bullets)

/-- `content_processor.get_resources`. -/
def get_resources (clientPresent : Bool) (resp : ApiJsonResp) (api : ApiFun)
    (parseJson : Str → Option Json) (g : Nat → Nat)
    (topic : Str) (max_resources : Nat) : OpResult ResData × List Tier :=
  orchestrate (openai_get_resources clientPresent resp topic max_resources)
    (free_get_resources api parseJson g topic max_resources)
    (static_resources_data topic max_resources)

/-- `content_processor.generate_study_guide`. -/
def generate_study_guide (clientPresent : Bool) (resp : ApiJsonResp) (api : ApiFun)
    (text : Str) : OpResult GuideData × List Tier :=
  orchestrate (openai_generate_study_guide clientPresent resp text)
    (free_generate_study_guide api text)
    (static_guide_data text)

/-- `content_processor.generate_quiz`. -/
def generate_quiz (clientPresent : Bool) (resp : ApiJsonResp) (api : ApiFun)
    (g : Nat → Nat) (text : Str) (num_questions : Nat) : OpResult QuizData × List Tier :=
  orchestrate (openai_generate_quiz clientPresent resp text num_questions)
    (free_generate_quiz api g text num_questions)
    (static_quiz_data g text num_questions)

/-! ## `content_processor.process_input`, `input_type = "text"`

The five stage invocations are parameters (each stage is one of the
wrapper calls above); the `List Stage` component records which stages
were invoked.  Lines 449-469 compute the resource-search topic consumed
by the resources stage; it is absorbed into the `resourcesR` parameter. -/

inductive Stage where
  | summary
  | resources
  | studyGuide
  | quiz
  | notes
  deriving Repr, DecidableEq

structure PipelineResult where
  success : Bool
  transcript : Option Str
  summary : Option Str
  resources : Option ResData
  study_guide : Option GuideData
  quiz : Option QuizData
  detailed_notes : Option Json
  error : Option Str

def process_input_text (input_content : Str)
    (summaryR : OpResult Str) (resourcesR : OpResult ResData)
    (guideR : OpResult GuideData) (quizR : OpResult QuizData)
    (notesR : OpResult Json) : PipelineResult × List Stage :=
  -- "text" branch: transcript attached, success set to True (line 380)
  let base : PipelineResult :=
    ⟨true, some input_content, none, none, none, none, none, none⟩
  -- `if result["success"] and result["transcript"]:` — an empty
  -- transcript string is falsy and yields the failure dict (line 532)
  if input_content.isEmpty then
    (⟨false, none, none, none, none, none, none,
      some (lit "Failed to process input: No valid transcript")⟩, [])
  else
    match summaryR with
    | .error e => ({ base with error := some e }, [Stage.summary])
    | .ok s =>
      let r1 := { base with summary := some s }
      match resourcesR with
      | .error e => ({ r1 with error := some e }, [Stage.summary, Stage.resources])
      | .ok rs =>
        let r2 := { r1 with resources := some rs }
        match guideR with
        | .error e =>
          ({ r2 with error := some e }, [Stage.summary, Stage.resources, Stage.studyGuide])
        | .ok gd =>
          let r3 := { r2 with study_guide := some gd }
          match quizR with
          | .error e =>
            ({ r3 with error := some e },
             [Stage.summary, Stage.resources, Stage.studyGuide, Stage.quiz])
          | .ok qz =>
            let r4 := { r3 with quiz := some qz }
            -- DetailedNotes failure is swallowed (lines 521-524)
            let r5 :=
              match notesR with
              | .ok n => { r4 with detailed_notes := some (Json.obj [(lit "notes", n)]) }
              | .error _ => r4
            ({ r5 with success := true },
             [Stage.summary, Stage.resources, Stage.studyGuide, Stage.quiz, Stage.notes])

/-! ## Validity predicates for the claimed schema invariants -/

/-- A `{term, definition}` JSON object with string fields. -/
def jsonIsKeyTerm (x : Json) : Bool :=
  match jsonLookup x (lit "term"), jsonLookup x (lit "definition") with
  | some (.str _), some (.str _) => true
  | _, _ => false

def jsonIsStr (x : Json) : Bool :=
  match x with
  | .str _ => true
  | _ => false

def jsonIsFlashcard (x : Json) : Bool :=
  match jsonLookup x (lit "question"), jsonLookup x (lit "answer") with
  | some (.str _), some (.str _) => true
  | _, _ => false

/-- The study-guide schema of the claim over raw JSON: under the
`study_guide` key, `key_terms`, `important_concepts` and `flashcards`
are non-empty lists of the right shapes. -/
def jsonGuideValid (j : Json) : Bool :=
  match jsonLookup j (lit "study_guide") with
  | some inner =>
    (match jsonLookup inner (lit "key_terms") with
     | some (.arr kts) => !kts.isEmpty && kts.all jsonIsKeyTerm
     | _ => false) &&
    (match jsonLookup inner (lit "important_concepts") with
     | some (.arr ics) => !ics.isEmpty && ics.all jsonIsStr
     | _ => false) &&
    (match jsonLookup inner (lit "flashcards") with
     | some (.arr fcs) => !fcs.isEmpty && fcs.all jsonIsFlashcard
     | _ => false)
  | none => false

/-- Study-guide schema validity of a surfaced payload.  For payloads
built field by field (secondary and static tiers) the field shapes hold
by construction and non-emptiness of the three lists is the content of
the claim. -/
def validGuideData (d : GuideData) : Bool :=
  match d with
  | .parsed s => !s.key_terms.isEmpty && !s.important_concepts.isEmpty && !s.flashcards.isEmpty
  | .raw j => jsonGuideValid j

def validGuideResult (r : OpResult GuideData) : Bool :=
  match r with
  | .ok d => validGuideData d
  | .error _ => false

/-- The claim's quiz-question integrity: exactly 4 options keyed
`A`-`D` and `correct_answer` one of `A`-`D` and a key of `options`. -/
def validQuestion (q : PyQuestion) : Bool :=
  q.options.length = 4 &&
  (abcd.all fun k => (dictGet q.options k).isSome) &&
  abcd.contains q.correct_answer &&
  (dictGet q.options q.correct_answer).isSome

def jsonQuestionValid (x : Json) : Bool :=
  (match jsonLookup x (lit "options") with
   | some (.obj fs) => fs.length = 4 && (abcd.all fun k => fs.any fun p => p.1 = k)
   | _ => false) &&
  (match jsonLookup x (lit "correct_answer"), jsonLookup x (lit "options") with
   | some (.str c), some (.obj fs) => abcd.contains c && (fs.any fun p => p.1 = c)
   | _, _ => false)

def jsonQuizValid (j : Json) : Bool :=
  match jsonLookup j (lit "quiz") with
  | some (.arr qs) => qs.all jsonQuestionValid
  | _ => false

def validQuizData (d : QuizData) : Bool :=
  match d with
  | .parsedFree qs => qs.all validQuestion
  | .parsedStatic qs => qs.all validQuestion
  | .raw j => jsonQuizValid j

def validQuizResult (r : OpResult QuizData) : Bool :=
  match r with
  | .ok d => validQuizData d
  | .error _ => false

/-- The weaker integrity the secondary tier actually guarantees: 4
options keyed `A`-`D`, and `correct_answer` a single letter `A`-`D` of
either case (a lowercase letter is then not a key of `options`). -/
def freeQuestionOk (q : PyQuestion) : Bool :=
  q.options.length = 4 &&
  (abcd.all fun k => (dictGet q.options k).isSome) &&
  (match q.correct_answer with
   | [c] => isABCDci c
   | _ => false)

def amendedQuizOk (r : OpResult QuizData) : Bool :=
  match r with
  | .ok (.parsedFree qs) => qs.all freeQuestionOk
  | .ok (.parsedStatic qs) => qs.all validQuestion
  | .ok (.raw _) => false
  | .error _ => false

/-- Keys of a Python-dict association list, in insertion order. -/
def keysOf (d : List (Str × Str)) : List Str := d.map Prod.fst

/-- A parsed primary-tier study-guide response whose three lists are
empty: `{"study_guide": {"key_terms": [], "important_concepts": [],
"flashcards": []}}` (as produced by `json.loads` on the corresponding
response text). -/
def C3cexJson : Json :=
  .obj [(lit "study_guide",
    .obj [(lit "key_terms", .arr []),
          (lit "important_concepts", .arr []),
          (lit "flashcards", .arr [])])]

/-- A secondary-tier quiz response whose correct-answer marker carries a
lowercase `b`: `"1. What?\nA. x\nB. y\nC. z\nD. w\nAnswer: b"`. -/
def c4resp : Str := lit "1. What?\nA. x\nB. y\nC. z\nD. w\nAnswer: b"

/-- An API stub that answers every request with the response above. -/
def c4api : ApiFun := fun _ _ => some c4resp

def c4text : Str := lit "Cats purr."

/-- The canonical four-slide-header input of the slide-title claim. -/
def c6input : Str :=
  lit "Slide 1: Neural Networks\nSlide 2: Neural Networks\nSlide 3: Neural Networks\nSlide 4: Intro"

/-- A trivial NLTK stand-in (empty tokenizations, no stopwords); the
slide-title branch returns before any of its fields are consulted. -/
def c6nlp : Nlp := ⟨fun _ => [], fun _ => [], []⟩

/-! # Theorems -/

theorem exists_of_findSome? {α β : Type} {f : α → Option β} {l : List α} {b : β}
    (h : l.findSome? f = some b) : ∃ a ∈ l, f a = some b := by
  induction l with
  | nil => simp [List.findSome?] at h
  | cons x xs ih =>
    rw [List.findSome?_cons] at h
    cases hx : f x with
    | some v =>
      rw [hx] at h
      exact ⟨x, List.mem_cons_self x xs, hx.trans h⟩
    | none =>
      rw [hx] at h
      obtain ⟨a, ha, hfa⟩ := ih h
      exact ⟨a, List.mem_cons_of_mem x ha, hfa⟩

theorem matchSlideAt_content {s : Str} {m : SlideMatch}
    (h : matchSlideAt s = some m) : ∀ c ∈ m.content, c ≠ 'S' := by
  simp only [matchSlideAt] at h
  split at h
  · split at h
    · exact absurd h (by simp)
    · split at h
      · exact absurd h (by simp)
      · split at h
        · split at h
          · exact absurd h (by simp)
          · obtain ⟨w2, _, h⟩ := exists_of_findSome? h
            split at h
            · exact absurd h (by simp)
            · obtain ⟨t, _, h⟩ := exists_of_findSome? h
              obtain ⟨r6, _, h⟩ := exists_of_findSome? h
              obtain ⟨c, _, h⟩ := exists_of_findSome? h
              split at h
              · intro ch hch
                have hm : m.content = ((r6.takeWhile (· ≠ 'S')).take c) := by
                  cases h; rfl
                rw [hm] at hch
                have := List.mem_takeWhile_imp (List.mem_of_mem_take hch)
                simpa using this
              · exact absurd h (by simp)
        · exact absurd h (by simp)
  · exact absurd h (by simp)

theorem slideScan_content {fuel : Nat} {s : Str} {m : SlideMatch}
    (h : m ∈ slideScan fuel s) : ∀ c ∈ m.content, c ≠ 'S' := by
  induction fuel generalizing s with
  | zero => simp [slideScan] at h
  | succ fuel ih =>
    cases s with
    | nil => simp [slideScan] at h
    | cons c cs =>
      simp only [slideScan] at h
      cases hm : matchSlideAt (c :: cs) with
      | some m0 =>
        simp only [hm] at h
        rcases List.mem_cons.mp h with h | h
        · subst h; exact matchSlideAt_content hm
        · exact ih h
      | none =>
        simp only [hm] at h
        exact ih h

theorem collapseGo_mem {b : Bool} {l : Str} {a : Char}
    (h : a ∈ collapseGo b l) : a = ' ' ∨ (isPyWs a = false ∧ a ∈ l) := by
  induction l generalizing b with
  | nil => simp [collapseGo] at h
  | cons c cs ih =>
    unfold collapseGo at h
    split at h
    · split at h
      · rcases ih h with h | ⟨h1, h2⟩
        · exact Or.inl h
        · exact Or.inr ⟨h1, List.mem_cons_of_mem c h2⟩
      · rcases List.mem_cons.mp h with h | h
        · exact Or.inl h
        · rcases ih h with h | ⟨h1, h2⟩
          · exact Or.inl h
          · exact Or.inr ⟨h1, List.mem_cons_of_mem c h2⟩
    · rcases List.mem_cons.mp h with h | h
      · subst h
        rename_i hc
        exact Or.inr ⟨by simpa using hc, List.mem_cons_self a cs⟩
      · rcases ih h with h | ⟨h1, h2⟩
        · exact Or.inl h
        · exact Or.inr ⟨h1, List.mem_cons_of_mem c h2⟩

theorem stripL_mem {l : Str} {a : Char} (h : a ∈ stripL l) : a ∈ l := by
  unfold stripL at h
  rw [List.mem_reverse] at h
  have h2 := (List.dropWhile_sublist isPyWs).subset h
  rw [List.mem_reverse] at h2
  exact (List.dropWhile_sublist isPyWs).subset h2

/-- C10: every slide dict produced by the static tier's
`extract_slide_content` has a content string free of the uppercase
letter `S`: the extraction pattern's body group is the character class
`[^S]*?`, and the whitespace collapse and strip applied afterwards
introduce at most spaces. -/
theorem C10_content_no_S (text : Str) :
    ∀ sl ∈ extract_slide_content text, ∀ c ∈ sl.content, c ≠ 'S' := by
  intro sl hsl c hc
  unfold extract_slide_content at hsl
  obtain ⟨m, hm, hf⟩ := List.mem_filterMap.mp hsl
  simp only [] at hf
  split at hf
  · have hcont : sl.content = stripL (pyCollapseWs m.content) := by
      cases hf; rfl
    rw [hcont] at hc
    have h1 := stripL_mem hc
    rcases collapseGo_mem h1 with h | ⟨_, h2⟩
    · subst h; decide
    · exact slideScan_content hm c h2
  · exact absurd hf (by simp)

theorem C10_witness :
    (⟨lit "1", lit "Intro", lit "hello world."⟩ : SlideC) ∈
      extract_slide_content (lit "Slide 1: Intro\nhello world.") ∧
    ∀ c ∈ (lit "hello world."), c ≠ 'S' := by
  refine ⟨by decide, ?_⟩
  exact C10_content_no_S (lit "Slide 1: Intro\nhello world.")
    ⟨lit "1", lit "Intro", lit "hello world."⟩ (by decide)

theorem orchestrate_isOk {α : Type} (p s st : OpResult α) (hst : st.isOk = true) :
    (orchestrate p s st).1.isOk = true := by
  unfold orchestrate
  split
  · assumption
  · split
    · assumption
    · exact hst

theorem static_summary_isOk (t : Str) (n : Nat) : (get_static_summary t n).isOk = true := rfl

theorem static_resources_isOk (t : Str) (n : Nat) :
    (static_resources_data t n).isOk = true := rfl

theorem static_guide_isOk (t : Str) : (static_guide_data t).isOk = true := rfl

theorem static_quiz_isOk (g : Nat → Nat) (t : Str) (n : Nat) :
    (static_quiz_data g t n).isOk = true := rfl

/-- C1: for every non-empty input text, each of the four orchestrator
wrappers returns a result with `success = True`, whatever the primary
and secondary tiers' external outcomes are, because the static tier is
the terminal fallback and returns `success = True` on every path
(including its own exception handler). -/
theorem C1_totality (clientPresent : Bool) (respS : Except Str Str)
    (respR respG respQ : ApiJsonResp) (api : ApiFun) (parseJson : Str → Option Json)
    (g : Nat → Nat) (text topic : Str)
    (max_bullets max_resources num_questions : Nat)
    (_h : text ≠ []) :
    (get_summary clientPresent respS api text max_bullets).1.isOk = true ∧
    (get_resources clientPresent respR api parseJson g topic max_resources).1.isOk = true ∧
    (generate_study_guide clientPresent respG api text).1.isOk = true ∧
    (generate_quiz clientPresent respQ api g text num_questions).1.isOk = true := by
  refine ⟨?_, ?_, ?_, ?_⟩
  · exact orchestrate_isOk _ _ _ (static_summary_isOk text max_bullets)
  · exact orchestrate_isOk _ _ _ (static_resources_isOk topic max_resources)
  · exact orchestrate_isOk _ _ _ (static_guide_isOk text)
  · exact orchestrate_isOk _ _ _ (static_quiz_isOk g text num_questions)

theorem C1_witness :
    (lit "t" ≠ []) ∧
    (get_summary false (.error []) (fun _ _ => none) (lit "t") 7).1.isOk = true := by
  refine ⟨by decide, ?_⟩
  exact (C1_totality false (.error []) (.ok .null) (.ok .null) (.ok .null)
    (fun _ _ => none) (fun _ => none) (fun _ => 0) (lit "t") (lit "t") 7 3 5
    (by decide)).1

/-- C7: whenever the primary tier's result has `success = False` and
the secondary tier's result has `success = True`, the orchestrator
surfaces exactly the secondary result: the primary tier appears exactly
once in the invocation trace, the static tier is never invoked, and the
result object is the secondary tier's result unchanged (no merging). -/
theorem C7_fallback_ordering {α : Type} (p s st : OpResult α)
    (h1 : p.isOk = false) (h2 : s.isOk = true) :
    (orchestrate p s st).1 = s ∧
    (orchestrate p s st).2 = [Tier.primary, Tier.secondary] ∧
    (orchestrate p s st).2.count Tier.primary = 1 ∧
    Tier.static ∉ (orchestrate p s st).2 := by
  have he : orchestrate p s st = (s, [Tier.primary, Tier.secondary]) := by
    unfold orchestrate
    rw [h1, h2]
    simp
  rw [he]
  exact ⟨rfl, rfl, by simp, by simp⟩

theorem C7_witness :
    (orchestrate (Except.error (lit "down") : OpResult Nat) (.ok 4) (.ok 7)).1 = .ok 4 ∧
    (orchestrate (Except.error (lit "down") : OpResult Nat) (.ok 4) (.ok 7)).2 =
      [Tier.primary, Tier.secondary] := by
  have h := C7_fallback_ordering (Except.error (lit "down") : OpResult Nat)
    (.ok 4) (.ok 7) rfl rfl
  exact ⟨h.1, h.2.1⟩

/-- C2: the code evaluated at a failing Summary stage.  The pipeline
halts (no later stage invoked) and `error` carries the stage's error
with earlier fields attached, but the returned dict still has
`success = True`: the `True` set when the transcript was obtained is
never cleared on the stage-failure paths, contradicting the claimed
`success == false`. -/
theorem C2_stage_failure_keeps_success :
    process_input_text (lit "t") (.error (lit "boom"))
      (.ok (.staticItems [])) (.ok (.raw .null)) (.ok (.raw .null)) (.ok .null) =
    ({ success := true, transcript := some (lit "t"), summary := none,
       resources := none, study_guide := none, quiz := none,
       detailed_notes := none, error := some (lit "boom") }, [Stage.summary]) := rfl

/-- C8: when every stage up to Quiz succeeds and the DetailedNotes
stage fails, the pipeline still returns `success = True` with
`detailed_notes` absent and the earlier stage payloads attached
unchanged; all five stages were invoked. -/
theorem C8_notes_failure_contained (t s e : Str) (rs : ResData) (gd : GuideData)
    (qz : QuizData) (ht : t ≠ []) :
    process_input_text t (.ok s) (.ok rs) (.ok gd) (.ok qz) (.error e) =
    ({ success := true, transcript := some t, summary := some s,
       resources := some rs, study_guide := some gd, quiz := some qz,
       detailed_notes := none, error := none },
     [Stage.summary, Stage.resources, Stage.studyGuide, Stage.quiz, Stage.notes]) := by
  unfold process_input_text
  have hne : t.isEmpty = false := by
    cases t with
    | nil => exact absurd rfl ht
    | cons c cs => rfl
  rw [hne]
  rfl

theorem C8_witness :
    process_input_text (lit "t") (.ok (lit "s")) (.ok (.staticItems []))
      (.ok (.raw .null)) (.ok (.raw .null)) (.error (lit "notes failed")) =
    ({ success := true, transcript := some (lit "t"), summary := some (lit "s"),
       resources := some (.staticItems []), study_guide := some (.raw .null),
       quiz := some (.raw .null), detailed_notes := none, error := none },
     [Stage.summary, Stage.resources, Stage.studyGuide, Stage.quiz, Stage.notes]) :=
  C8_notes_failure_contained (lit "t") (lit "s") (lit "notes failed")
    (.staticItems []) (.raw .null) (.raw .null) (by decide)

theorem isOk_ok {ε α : Type} (a : α) : (Except.ok a : Except ε α).isOk = true := rfl

theorem isOk_error {ε α : Type} (e : ε) : (Except.error e : Except ε α).isOk = false := rfl

/-- C9 counterexample: with every API request failing
(`make_api_request` constantly `None`), the secondary tier's
`get_summary` still returns `success = True` (it builds a structured
summary locally), contradicting the claim that all four secondary
operations return `success = False` on total API failure. -/
theorem C9_cex_summary_succeeds :
    (free_get_summary (fun _ _ => none) (lit "x") 7).isOk = true := rfl

/-- C9 amended: on total API failure the secondary tier's study-guide
and quiz operations return `success = False`, but `get_summary` and
`get_resources` return `success = True` with locally generated
fallback content. -/
theorem C9_amended_total_failure (text topic : Str) (g : Nat → Nat)
    (parseJson : Str → Option Json) :
    (free_generate_study_guide (fun _ _ => none) text).isOk = false ∧
    (free_generate_quiz (fun _ _ => none) g text 5).isOk = false ∧
    (free_get_summary (fun _ _ => none) text 7).isOk = true ∧
    (free_get_resources (fun _ _ => none) parseJson g topic 3).isOk = true := by
  refine ⟨rfl, rfl, ?_, rfl⟩
  unfold free_get_summary
  simp only []
  split
  · split
    · rename_i h
      exact absurd h (by decide)
    · rfl
  · rfl

theorem ite_isEmpty_false {α : Type} (dflt x : List α) (hd : dflt.isEmpty = false) :
    (if x.isEmpty then dflt else x).isEmpty = false := by
  split
  · exact hd
  · rename_i h
    simpa using h

theorem validGuideData_parsed_mk (kt : List KeyTerm) (ic : List Str) (fc : List Flashcard)
    (h1 : kt.isEmpty = false) (h2 : ic.isEmpty = false) (h3 : fc.isEmpty = false) :
    validGuideData (.parsed ⟨kt, ic, fc⟩) = true := by
  simp only [validGuideData]
  rw [h1, h2, h3]
  rfl

theorem validGuideData_finalize (s : GuideSections) :
    validGuideData (.parsed (finalizeGuideSections s)) = true := by
  unfold finalizeGuideSections
  exact validGuideData_parsed_mk _ _ _ (ite_isEmpty_false _ _ (by decide))
    (ite_isEmpty_false _ _ (by decide)) (ite_isEmpty_false _ _ (by decide))

theorem validGuideData_freeSections (a b : Str) :
    validGuideData (.parsed (freeGuideSectionsOf a b)) = true := by
  unfold freeGuideSectionsOf
  exact validGuideData_finalize _

theorem free_guide_shape (api : ApiFun) (text : Str) :
    (free_generate_study_guide api text).isOk = false ∨
    ∃ a b, free_generate_study_guide api text = .ok (.parsed (freeGuideSectionsOf a b)) := by
  unfold free_generate_study_guide
  simp only []
  split
  · left; rfl
  · right; exact ⟨_, _, rfl⟩

theorem static_guide_valid (text : Str) :
    validGuideResult (static_guide_data text) = true := by
  unfold static_guide_data generate_static_study_guide
  simp only [Except.map, validGuideResult]
  exact validGuideData_parsed_mk _ _ _ (ite_isEmpty_false _ _ (by decide))
    (ite_isEmpty_false _ _ (by decide)) (ite_isEmpty_false _ _ (by decide))

/-- C3 counterexample: the primary (OpenAI) tier performs no schema
validation, so a parsed JSON response with empty `key_terms`,
`important_concepts` and `flashcards` lists is surfaced by the
orchestrator with `success = True`, refuting the schema-validity claim
for results produced by the primary tier. -/
theorem C3_cex_primary_unvalidated :
    (generate_study_guide true (.ok C3cexJson) (fun _ _ => none) (lit "t")).1.isOk = true ∧
    validGuideResult (generate_study_guide true (.ok C3cexJson) (fun _ _ => none) (lit "t")).1
      = false := ⟨rfl, rfl⟩

/-- C3 amended: for every study-guide result surfaced with
`success = True` that was produced by the secondary or static tier
(i.e. whenever the primary tier did not succeed), `key_terms`,
`important_concepts` and `flashcards` are non-empty lists of the
claimed field shapes (shapes hold by construction in those tiers). -/
theorem C3_amended_schema_validity (clientPresent : Bool) (resp : ApiJsonResp)
    (api : ApiFun) (text : Str)
    (hp : (openai_generate_study_guide clientPresent resp text).isOk = false) :
    (generate_study_guide clientPresent resp api text).1.isOk = true ∧
    validGuideResult (generate_study_guide clientPresent resp api text).1 = true := by
  unfold generate_study_guide orchestrate
  rw [hp]
  simp only [Bool.false_eq_true, if_false]
  split
  · rename_i hs
    refine ⟨hs, ?_⟩
    rcases free_guide_shape api text with hf | ⟨a, b, hf⟩
    · rw [hf] at hs; exact absurd hs (by decide)
    · rw [hf]
      unfold validGuideResult
      exact validGuideData_freeSections a b
  · exact ⟨static_guide_isOk text, static_guide_valid text⟩

theorem C3_witness :
    (openai_generate_study_guide false (.ok .null) (lit "t")).isOk = false ∧
    (generate_study_guide false (.ok .null) (fun _ _ => none) (lit "t")).1.isOk = true ∧
    validGuideResult (generate_study_guide false (.ok .null) (fun _ _ => none) (lit "t")).1
      = true := by
  refine ⟨rfl, ?_⟩
  exact C3_amended_schema_validity false (.ok .null) (fun _ _ => none) (lit "t") rfl

theorem head_dropWhile_false {p : Char → Bool} {l : Str} {c : Char} {rest : Str}
    (h : l.dropWhile p = c :: rest) : p c = false := by
  induction l with
  | nil => simp at h
  | cons a l ih =>
    rw [List.dropWhile_cons] at h
    split at h
    · exact ih h
    · cases h
      rename_i ha
      simpa using ha

theorem correctTail_shape {r : Str} {x : Str} (h : correctTail r = some x) :
    ∃ c, x = [c] ∧ isABCDci c = true := by
  unfold correctTail at h
  cases hd : r.dropWhile (fun c => !isABCDci c) with
  | nil => rw [hd] at h; simp at h
  | cons c rest =>
    rw [hd] at h
    cases h
    have := head_dropWhile_false hd
    exact ⟨c, rfl, by simpa using this⟩

theorem correctAt_shape {s : Str} {x : Str} (h : correctAt s = some x) :
    ∃ c, x = [c] ∧ isABCDci c = true := by
  simp only [correctAt] at h
  split at h
  · exact correctTail_shape h
  · split at h
    · split at h
      · rename_i x' heq
        cases h
        split at heq
        · exact correctTail_shape heq
        · simp at heq
      · exact correctTail_shape h
    · split at h
      · exact correctTail_shape h
      · simp at h

theorem searchOpt_prop {f : Str → Option Str} {P : Str → Prop}
    (hf : ∀ s x, f s = some x → P x) :
    ∀ fuel s x, searchOpt f fuel s = some x → P x := by
  intro fuel
  induction fuel with
  | zero => intro s x h; simp [searchOpt] at h
  | succ fuel ih =>
    intro s x h
    unfold searchOpt at h
    split at h
    · exact hf s x h
    · cases s with
      | nil => simp at h
      | cons c cs => exact ih cs x h

theorem dictGet_isSome_eq_any (d : List (Str × Str)) (k : Str) :
    (dictGet d k).isSome = d.any fun p => p.1 = k := by
  induction d with
  | nil => rfl
  | cons p rest ih =>
    rw [List.any_cons]
    by_cases h : p.1 = k
    · simp [dictGet, List.find?_cons, h]
    · simp only [dictGet, List.find?_cons, h, decide_False, Bool.false_or, Bool.or_eq_true,
        decide_eq_true_eq, false_or] at ih ⊢
      exact ih

theorem any_key_iff_mem (d : List (Str × Str)) (k : Str) :
    (d.any fun p => p.1 = k) = true ↔ k ∈ keysOf d := by
  rw [List.any_eq_true]
  unfold keysOf
  rw [List.mem_map]
  simp only [decide_eq_true_eq]

theorem keysOf_dictInsert_mem {d : List (Str × Str)} {k : Str} (v : Str)
    (h : k ∈ keysOf d) : keysOf (dictInsert d k v) = keysOf d := by
  unfold dictInsert
  rw [if_pos ((any_key_iff_mem d k).mpr h)]
  unfold keysOf
  rw [List.map_map]
  refine List.map_congr_left fun p _ => ?_
  by_cases hp : p.1 = k
  · simp [Function.comp, hp]
  · simp [Function.comp, hp]

theorem keysOf_dictInsert_not_mem {d : List (Str × Str)} {k : Str} (v : Str)
    (h : k ∉ keysOf d) : keysOf (dictInsert d k v) = keysOf d ++ [k] := by
  unfold dictInsert
  rw [if_neg (by rw [any_key_iff_mem]; exact h)]
  unfold keysOf
  rw [List.map_append]
  rfl

theorem dictInsert_length_not_mem {d : List (Str × Str)} {k : Str} (v : Str)
    (h : k ∉ keysOf d) : (dictInsert d k v).length = d.length + 1 := by
  unfold dictInsert
  rw [if_neg (by rw [any_key_iff_mem]; exact h)]
  simp

theorem keys_full_of_ge (d : List (Str × Str)) (hnd : (keysOf d).Nodup)
    (hsub : keysOf d ⊆ abcd) (hge : 4 ≤ d.length) :
    d.length = 4 ∧ ∀ k ∈ abcd, k ∈ keysOf d := by
  have hsp := List.subperm_of_subset hnd hsub
  have hle := hsp.length_le
  have hkl : (keysOf d).length = d.length := List.length_map d Prod.fst
  have habcd : abcd.length = 4 := rfl
  have h4 : d.length = 4 := by omega
  have hperm := hsp.perm_of_length_le (by omega)
  exact ⟨h4, fun k hk => hperm.symm.subset hk⟩

theorem padOptions_spec : ∀ (fuel : Nat) (d : List (Str × Str)),
    (keysOf d).Nodup → keysOf d ⊆ abcd → 4 ≤ d.length + fuel →
    (padOptions fuel d).length = 4 ∧ ∀ k ∈ abcd, k ∈ keysOf (padOptions fuel d) := by
  intro fuel
  induction fuel with
  | zero =>
    intro d hnd hsub hlen
    unfold padOptions
    exact keys_full_of_ge d hnd hsub (by omega)
  | succ fuel ih =>
    intro d hnd hsub hlen
    unfold padOptions
    split
    · rename_i hlt
      cases hmiss : abcd.filter (fun o => !(d.any fun p => p.1 = o)) with
      | nil =>
        exfalso
        have hall : ∀ k ∈ abcd, k ∈ keysOf d := by
          intro k hk
          by_contra hnk
          have hm : k ∈ abcd.filter (fun o => !(d.any fun p => p.1 = o)) := by
            rw [List.mem_filter]
            refine ⟨hk, ?_⟩
            have : (d.any fun p => p.1 = k) = false := by
              rcases hb : d.any fun p => p.1 = k
              · rfl
              · exact absurd ((any_key_iff_mem d k).mp hb) hnk
            simp [this]
          rw [hmiss] at hm
          exact absurd hm (List.not_mem_nil k)
        have hsp := List.subperm_of_subset (show abcd.Nodup by decide)
          (fun _ hx => hall _ hx)
        have := hsp.length_le
        have hkl : (keysOf d).length = d.length := List.length_map d Prod.fst
        have habcd : abcd.length = 4 := rfl
        omega
      | cons m ms =>
        have hmem : m ∈ abcd.filter (fun o => !(d.any fun p => p.1 = o)) := by
          rw [hmiss]; exact List.mem_cons_self m ms
        rw [List.mem_filter] at hmem
        have hmk : m ∉ keysOf d := by
          intro hk
          have := (any_key_iff_mem d m).mpr hk
          rw [this] at hmem
          simp at hmem
        have hins := keysOf_dictInsert_not_mem (d := d) (lit "Option " ++ m) hmk
        apply ih
        · rw [hins]
          simp [List.nodup_append, hnd, hmk]
        · rw [hins]
          intro x hx
          rcases List.mem_append.mp hx with hx | hx
          · exact hsub hx
          · rw [List.mem_singleton.mp hx]
            exact hmem.1
        · rw [dictInsert_length_not_mem _ hmk]
          omega
    · rename_i hge
      exact keys_full_of_ge d hnd hsub (by omega)

theorem pairScan_prop {f : Str → Option ((Str × Str) × Str)} {P : Str × Str → Prop}
    (hf : ∀ s e rest, f s = some (e, rest) → P e) :
    ∀ fuel s, ∀ e ∈ pairScan f fuel s, P e := by
  intro fuel
  induction fuel with
  | zero => intro s e he; simp [pairScan] at he
  | succ fuel ih =>
    intro s e he
    cases s with
    | nil => simp [pairScan] at he
    | cons c cs =>
      simp only [pairScan] at he
      cases hm : f (c :: cs) with
      | some pr =>
        obtain ⟨e0, rest0⟩ := pr
        rw [hm] at he
        simp only [] at he
        split at he
        · rcases List.mem_cons.mp he with he | he
          · subst he; exact hf _ _ _ hm
          · exact ih rest0 e he
        · rcases List.mem_cons.mp he with he | he
          · subst he; exact hf _ _ _ hm
          · exact ih cs e he
      | none =>
        rw [hm] at he
        exact ih cs e he

theorem optMatchAt_key : ∀ {s : Str} {kv : Str × Str} {rest : Str},
    optMatchAt s = some (kv, rest) → kv.1 ∈ abcd := by
  intro s kv rest h
  cases s with
  | nil => simp [optMatchAt] at h
  | cons a s1 =>
    cases s1 with
    | nil => simp [optMatchAt] at h
    | cons p r0 =>
      simp only [optMatchAt] at h
      split at h
      · rename_i hcond
        split at h
        · simp at h
        · split at h
          · simp at h
          · cases h
            show [a] ∈ abcd
            have ha : ((a = 'A' ∨ a = 'B') ∨ a = 'C') ∨ a = 'D' := by
              have h1 := ((Bool.and_eq_true _ _).mp hcond).1
              simpa [Bool.or_eq_true, decide_eq_true_eq] using h1
            rcases ha with ((ha | ha) | ha) | ha <;> (subst ha; decide)
      · simp at h

theorem optsFold_good (kvs : List (Str × Str)) (hk : ∀ kv ∈ kvs, kv.1 ∈ abcd) :
    ∀ d, (keysOf d).Nodup → keysOf d ⊆ abcd →
    (keysOf (kvs.foldl (fun d kv => dictInsert d kv.1 kv.2) d)).Nodup ∧
    keysOf (kvs.foldl (fun d kv => dictInsert d kv.1 kv.2) d) ⊆ abcd := by
  induction kvs with
  | nil => intro d hnd hsub; exact ⟨hnd, hsub⟩
  | cons kv rest ih =>
    intro d hnd hsub
    rw [List.foldl_cons]
    have hkv := hk kv (List.mem_cons_self kv rest)
    have hrest : ∀ x ∈ rest, x.1 ∈ abcd := fun x hx => hk x (List.mem_cons_of_mem kv hx)
    by_cases hmem : kv.1 ∈ keysOf d
    · have hkeys := keysOf_dictInsert_mem kv.2 hmem
      exact ih hrest _ (hkeys ▸ hnd) (hkeys ▸ hsub)
    · have hkeys := keysOf_dictInsert_not_mem kv.2 hmem
      apply ih hrest
      · rw [hkeys]
        simp [List.nodup_append, hnd, hmem]
      · rw [hkeys]
        intro x hx
        rcases List.mem_append.mp hx with hx | hx
        · exact hsub hx
        · rw [List.mem_singleton.mp hx]
          exact hkv

theorem parseQuizBlock_ok {n i : Nat} {q_text : Str} {q : PyQuestion}
    (h : parseQuizBlock n i q_text = some q) : freeQuestionOk q = true := by
  cases q_text with
  | nil => simp [parseQuizBlock] at h
  | cons c cs =>
    simp only [parseQuizBlock] at h
    split at h
    · simp at h
    · split at h
      · simp at h
      · cases h
        have hkeys : ∀ kv ∈ pairScan optMatchAt (cs.length + 1 + 1) (c :: cs),
            kv.1 ∈ abcd :=
          pairScan_prop (fun _ _ _ hm => optMatchAt_key hm) _ _
        have hgood := optsFold_good _ hkeys [] (by simp [keysOf]) (by simp [keysOf])
        have hspec := padOptions_spec 4 _ hgood.1 hgood.2 (by omega)
        unfold freeQuestionOk
        simp only [Bool.and_eq_true]
        refine ⟨⟨?_, ?_⟩, ?_⟩
        · simp [hspec.1]
        · rw [List.all_eq_true]
          intro k hk
          rw [dictGet_isSome_eq_any]
          exact (any_key_iff_mem _ k).mpr (hspec.2 k hk)
        · cases hc : searchOpt correctAt ((c :: cs).length + 1) (c :: cs) with
          | some x =>
            simp only [hc, Option.getD_some]
            obtain ⟨c0, hx, hABCD⟩ :=
              searchOpt_prop (P := fun x => ∃ c0, x = [c0] ∧ isABCDci c0 = true)
                (fun _ _ hm => correctAt_shape hm) _ _ _ hc
            rw [hx]
            exact hABCD
          | none =>
            simp only [hc, Option.getD_none]
            decide

theorem synthFill_ok (g : Nat → Nat) (sentences keywords : List Str) (n : Nat) :
    ∀ (fuel i k : Nat) (acc : List PyQuestion),
    (∀ q ∈ acc, freeQuestionOk q = true) →
    ∀ q ∈ synthFill g sentences keywords n i k fuel acc, freeQuestionOk q = true := by
  intro fuel
  induction fuel with
  | zero =>
    intro i k acc hacc q hq
    unfold synthFill at hq
    rw [List.mem_reverse] at hq
    exact hacc q hq
  | succ fuel ih =>
    intro i k acc hacc q hq
    simp only [synthFill] at hq
    split at hq
    · rw [List.mem_reverse] at hq; exact hacc q hq
    · split at hq
      · split at hq
        · refine ih _ _ _ ?_ q hq
          intro q' hq'
          rcases List.mem_cons.mp hq' with hq' | hq'
          · subst hq'; rfl
          · exact hacc q' hq'
        · exact ih _ _ _ hacc q hq
      · exact ih _ _ _ hacc q hq

theorem quiz0_ok (n : Nat) (qs : List Str) :
    ∀ q ∈ qs.enum.filterMap fun p => parseQuizBlock n p.1 p.2, freeQuestionOk q = true := by
  intro q hq
  obtain ⟨p, _, hp⟩ := List.mem_filterMap.mp hq
  exact parseQuizBlock_ok hp

theorem freeQuizQuestionsOf_ok (g : Nat → Nat) (a b : Str) (n : Nat) :
    ∀ q ∈ freeQuizQuestionsOf g a b n, freeQuestionOk q = true := by
  intro q hq
  simp only [freeQuizQuestionsOf] at hq
  split at hq
  · rcases List.mem_append.mp hq with hq | hq
    · exact quiz0_ok n _ q hq
    · exact synthFill_ok g _ _ n _ _ _ [] (by simp) q hq
  · exact quiz0_ok n _ q hq

theorem free_quiz_shape (api : ApiFun) (g : Nat → Nat) (text : Str) (n : Nat) :
    (free_generate_quiz api g text n).isOk = false ∨
    ∃ a b, free_generate_quiz api g text n = .ok (.parsedFree (freeQuizQuestionsOf g a b n)) := by
  unfold free_generate_quiz
  simp only []
  split
  · left; rfl
  · right; exact ⟨_, _, rfl⟩

theorem pyShuffleGo_length {α : Type} (g : Nat → Nat) :
    ∀ (fuel k : Nat) (xs : List α), (pyShuffleGo g fuel k xs).1.length = xs.length := by
  intro fuel
  induction fuel with
  | zero => intro k xs; cases xs <;> rfl
  | succ fuel ih =>
    intro k xs
    cases xs with
    | nil => rfl
    | cons x rest =>
      unfold pyShuffleGo
      simp only [List.length_cons]
      rw [ih]
      have hi : g k % (rest.length + 1) < (x :: rest).length := Nat.mod_lt _ (by simp)
      rw [List.length_eraseIdx_of_lt hi]
      simp

theorem pyShuffle_length {α : Type} (g : Nat → Nat) (k : Nat) (xs : List α) :
    (pyShuffle g k xs).1.length = xs.length := pyShuffleGo_length g xs.length k xs

theorem list_len4 {α : Type} {l : List α} (h : l.length = 4) :
    ∃ a b c d, l = [a, b, c, d] := by
  cases l with
  | nil => simp at h
  | cons a l1 =>
    cases l1 with
    | nil => simp at h
    | cons b l2 =>
      cases l2 with
      | nil => simp at h
      | cons c l3 =>
        cases l3 with
        | nil => simp at h
        | cons d l4 =>
          cases l4 with
          | nil => exact ⟨a, b, c, d, rfl⟩
          | cons e l5 => simp at h

theorem staticGeneric_valid : ∀ q ∈ staticGenericQuestions, validQuestion q = true := by
  decide

theorem validQuestion_zip4 (v0 v1 v2 v3 : Str) (qt corr expl : Str)
    (hc : corr ∈ abcd) :
    validQuestion ⟨qt, [(lit "A", v0), (lit "B", v1), (lit "C", v2), (lit "D", v3)],
      corr, expl⟩ = true := by
  have hc4 : corr = lit "A" ∨ corr = lit "B" ∨ corr = lit "C" ∨ corr = lit "D" := by
    simpa [abcd] using hc
  rcases hc4 with h | h | h | h <;> (subst h; rfl)

theorem validQuestion_static_core (qt expl corr : Str) (sh21 : List Str)
    (hlen : sh21.length = 4) :
    validQuestion ⟨qt, List.zip [lit "A", lit "B", lit "C", lit "D"] sh21,
      (((List.zip [lit "A", lit "B", lit "C", lit "D"] sh21).find? fun p =>
          p.2 = corr).map Prod.fst).getD (lit "A"), expl⟩ = true := by
  obtain ⟨v0, v1, v2, v3, rfl⟩ := list_len4 hlen
  show validQuestion ⟨qt, [(lit "A", v0), (lit "B", v1), (lit "C", v2), (lit "D", v3)],
    ((([(lit "A", v0), (lit "B", v1), (lit "C", v2), (lit "D", v3)]).find? fun p =>
        p.2 = corr).map Prod.fst).getD (lit "A"), expl⟩ = true
  cases hf : ([(lit "A", v0), (lit "B", v1), (lit "C", v2), (lit "D", v3)]).find? fun p =>
      p.2 = corr with
  | some p =>
    have hp := List.mem_of_find?_eq_some hf
    simp only [List.mem_cons, List.not_mem_nil, or_false] at hp
    apply validQuestion_zip4
    show p.1 ∈ abcd
    rcases hp with h | h | h | h
    · subst h; exact (show lit "A" ∈ abcd by decide)
    · subst h; exact (show lit "B" ∈ abcd by decide)
    · subst h; exact (show lit "C" ∈ abcd by decide)
    · subst h; exact (show lit "D" ∈ abcd by decide)
  | none =>
    exact validQuestion_zip4 v0 v1 v2 v3 qt _ expl (by decide)

theorem staticQuizGo_valid (g : Nat → Nat) (slides : List SlideC) (n : Nat) :
    ∀ (sl : List SlideC) (k : Nat) (acc : List PyQuestion),
    (∀ q ∈ acc, validQuestion q = true) →
    ∀ q ∈ staticQuizGo g slides n sl k acc, validQuestion q = true := by
  intro sl
  induction sl with
  | nil =>
    intro k acc hacc q hq
    simp only [staticQuizGo] at hq
    rw [List.mem_reverse] at hq
    exact hacc q hq
  | cons s rest ih =>
    intro k acc hacc q hq
    simp only [staticQuizGo] at hq
    split at hq
    · rw [List.mem_reverse] at hq
      exact hacc q hq
    · split at hq
      · refine ih _ _ ?_ q hq
        intro q' hq'
        rcases List.mem_cons.mp hq' with hq' | hq'
        · subst hq'
          exact validQuestion_static_core _ _ _ _ (by rw [pyShuffle_length]; rfl)
        · exact hacc q' hq'
      · exact ih _ _ hacc q hq

theorem free_quiz_parsedFree (api : ApiFun) (g : Nat → Nat) (text : Str) (n : Nat)
    (a b : Str) (hs : free_generate_quiz api g text n = .ok (.parsedFree
      (freeQuizQuestionsOf g a b n))) :
    amendedQuizOk (free_generate_quiz api g text n) = true := by
  rw [hs]
  simp only [amendedQuizOk]
  rw [List.all_eq_true]
  exact fun q hq => freeQuizQuestionsOf_ok g a b n q hq

theorem static_quiz_amended (g : Nat → Nat) (text : Str) (n : Nat) :
    amendedQuizOk (static_quiz_data g text n) = true := by
  unfold static_quiz_data generate_static_quiz
  simp only [Except.map, amendedQuizOk]
  rw [List.all_eq_true]
  intro q hq
  split at hq
  · rcases List.mem_append.mp hq with hq | hq
    · exact staticQuizGo_valid g _ n _ 0 [] (by simp) q hq
    · exact staticGeneric_valid q (List.mem_of_mem_take hq)
  · exact staticQuizGo_valid g _ n _ 0 [] (by simp) q hq

/-- C4 counterexample: with the primary tier unconfigured and the secondary
tier answering with a question block whose correct-answer marker carries a
lowercase `b`, the `generate_quiz` wrapper surfaces `success = True` while the
claimed invariant fails: the question's `correct_answer` is `"b"`, which is
not one of the keys `A`-`D` of `options` (the `[A-D]` capture of
`free_ai_helpers.py` line 994 runs under `re.IGNORECASE`). -/
theorem C4_cex :
    (generate_quiz false (.apiError (lit "no key")) c4api (fun _ => 0) c4text 5).1.isOk
      = true ∧
    validQuizResult
      (generate_quiz false (.apiError (lit "no key")) c4api (fun _ => 0) c4text 5).1
      = false :=
  ⟨rfl, rfl⟩

/-- C4 (amended): for every quiz result not surfaced by the primary tier
(the primary tier returns parsed JSON unvalidated), the wrapper surfaces
`success = True` and every question has exactly 4 options keyed `A`-`D` and a
`correct_answer` that is a single letter `A`-`D` of either case (for the
static tier the original invariant holds: the correct answer is an uppercase
key of `options`). -/
theorem C4_amended (clientPresent : Bool) (resp : ApiJsonResp) (api : ApiFun)
    (g : Nat → Nat) (text : Str) (n : Nat)
    (hp : (openai_generate_quiz clientPresent resp text n).isOk = false) :
    (generate_quiz clientPresent resp api g text n).1.isOk = true ∧
    amendedQuizOk (generate_quiz clientPresent resp api g text n).1 = true := by
  cases hfree : (free_generate_quiz api g text n).isOk with
  | true =>
    have hres : (generate_quiz clientPresent resp api g text n).1 =
        free_generate_quiz api g text n := by
      unfold generate_quiz orchestrate
      rw [hp, hfree]
      simp
    rw [hres]
    refine ⟨hfree, ?_⟩
    rcases free_quiz_shape api g text n with hs | ⟨a, b, hs⟩
    · rw [hfree] at hs
      simp at hs
    · exact free_quiz_parsedFree api g text n a b hs
  | false =>
    have hres : (generate_quiz clientPresent resp api g text n).1 =
        static_quiz_data g text n := by
      unfold generate_quiz orchestrate
      rw [hp, hfree]
      simp
    rw [hres]
    exact ⟨static_quiz_isOk g text n, static_quiz_amended g text n⟩

/-- C4 witness: a concrete instance of the amended theorem (primary tier
unconfigured, all API requests failing, so the static tier answers). -/
theorem C4_witness :
    (openai_generate_quiz false (.apiError []) [] 0).isOk = false ∧
    ((generate_quiz false (.apiError []) (fun _ _ => none) (fun _ => 0) [] 0).1.isOk
        = true ∧
     amendedQuizOk
       (generate_quiz false (.apiError []) (fun _ _ => none) (fun _ => 0) [] 0).1
        = true) :=
  ⟨rfl, C4_amended false (.apiError []) (fun _ _ => none) (fun _ => 0) [] 0 rfl⟩

theorem toNat_ofNat_valid {n : Nat} (h : n.isValidChar) : (Char.ofNat n).toNat = n := by
  unfold Char.ofNat
  rw [dif_pos h]
  rfl

theorem isUpper_toNat {c : Char} (h : c.isUpper = true) :
    65 ≤ c.toNat ∧ c.toNat ≤ 90 := by
  simp only [Char.isUpper, Bool.and_eq_true, decide_eq_true_eq] at h
  exact ⟨h.1, h.2⟩

theorem startsWithL_subset : ∀ {p s : Str}, startsWithL p s = true → ∀ c ∈ p, c ∈ s := by
  intro p
  induction p with
  | nil => intro s _ c hc; simp at hc
  | cons p0 ps ih =>
    intro s h c hc
    cases s with
    | nil => simp [startsWithL] at h
    | cons s0 ss =>
      simp only [startsWithL, Bool.and_eq_true, decide_eq_true_eq] at h
      rcases List.mem_cons.mp hc with hc | hc
      · subst hc
        rw [h.1]
        exact List.mem_cons_self s0 ss
      · exact List.mem_cons_of_mem s0 (ih h.2 c hc)

theorem hasSubstr_subset {p : Str} : ∀ {s : Str}, hasSubstr p s = true → ∀ c ∈ p, c ∈ s := by
  intro s
  induction s with
  | nil =>
    intro h c hc
    simp only [hasSubstr] at h
    rw [List.isEmpty_iff] at h
    subst h
    simp at hc
  | cons c0 cs ih =>
    intro h c hc
    simp only [hasSubstr, Bool.or_eq_true] at h
    rcases h with h | h
    · exact startsWithL_subset h c hc
    · exact List.mem_cons_of_mem c0 (ih h c hc)

theorem cleanText_chars {t : Str} {a : Char} (h : a ∈ cleanText t) :
    (isWordCh a || isPyWs a) = true := by
  unfold cleanText at h
  have h1 := stripL_mem h
  rcases collapseGo_mem h1 with h2 | ⟨_, h2⟩
  · subst h2; decide
  · obtain ⟨b, _, hb⟩ := List.mem_map.mp h2
    by_cases hc : (isWordCh b || isPyWs b) = true
    · rw [if_pos hc] at hb
      subst hb
      exact hc
    · rw [if_neg hc] at hb
      subst hb
      decide

theorem pyLowerChar_ne_colon {a : Char} (h : (isWordCh a || isPyWs a) = true) :
    pyLowerChar a ≠ ':' := by
  intro he
  unfold pyLowerChar at he
  split at he
  · rename_i hu
    have hb := isUpper_toNat hu
    have hv : (a.toNat + 32).isValidChar := Or.inl (by omega)
    have h58 := congrArg Char.toNat he
    rw [toNat_ofNat_valid hv] at h58
    have hcolon : (':' : Char).toNat = 58 := rfl
    rw [hcolon] at h58
    omega
  · subst he
    exact absurd h (by decide)

theorem cleanText_lower_no_colon (t : Str) : ':' ∉ pyLower (cleanText t) := by
  intro h
  obtain ⟨a, ha, hme⟩ := List.mem_map.mp h
  exact pyLowerChar_ne_colon (cleanText_chars ha) hme

/-- C5: the explicit-marker path of `extract_main_topics` is dead code for
every input: the punctuation-stripping of lines 49-50 replaces `:` with a
space before the marker scan, every marker keyword (`"topic:"`,
`"subject:"`, `"about:"`, `"focuses on:"`) contains `:`, and lowercasing
maps no cleaned character to `:` — so the keyword test of line 55 never
succeeds and the function can never return through the marker branch. -/
theorem C5_marker_dead (text : Str) : markerTopic (cleanText text) = none := by
  have hno := cleanText_lower_no_colon text
  have hkw : ∀ kw : Str, ':' ∈ kw → hasSubstr kw (pyLower (cleanText text)) = false := by
    intro kw hc
    cases hb : hasSubstr kw (pyLower (cleanText text)) with
    | false => rfl
    | true => exact absurd (hasSubstr_subset hb ':' hc) hno
  have h1 := hkw (lit "topic:") (by decide)
  have h2 := hkw (lit "subject:") (by decide)
  have h3 := hkw (lit "about:") (by decide)
  have h4 := hkw (lit "focuses on:") (by decide)
  unfold markerTopic topic_keywords
  simp [List.findSome?_cons, h1, h2, h3, h4]

/-- C6 counterexample: on the canonical input with three
`Slide N: Neural Networks` headers and one `Slide 4: Intro`, the function
does not return `"Neural Networks"`: the slide regex runs on the cleaned
text (colons and newlines already replaced by spaces), so each captured
title extends up to the next `Slide` token. -/
theorem C6_cex : extract_main_topics c6nlp c6input 3 ≠ lit "Neural Networks" := by
  decide

/-- C6 (amended): on the canonical four-header input the function returns
`"Neural Networks Slide"` — the most frequent cleaned-text slide capture —
for every NLTK environment (the slide branch returns before NLTK is
consulted). -/
theorem C6_amended (nlp : Nlp) : extract_main_topics nlp c6input 3 = lit "Neural Networks Slide" :=
  rfl

end StudyAssistant
